import Mathlib

/-!
# Verification of the confidence-routed answer-resolution pipeline

Shallow embedding, in Lean 4, of the core logic of the math-question
answering backend (`backend/app`):

* `guardrails.py` — `InputFilter.process`, `OutputFilter.process` and their
  pattern catalogues;
* `llm_service.py` — the deterministic fallback solver
  (`_comprehensive_fallback_solution` and its template helpers);
* `routes.py` — the knowledge-base/Google-search routing step and the
  reference assembly of `solve_math_problem`;
* `google_search.py` — `extract_references`;
* `web_search.py` — `_generate_dynamic_references`;
* `feedback.py` — `FeedbackManager.process_feedback` and the type-specific
  feedback handlers.

Python strings are modelled as `List Char` (one entry per code point, matching
Python's `len`/indexing semantics); Python floats are modelled as `ℚ` (all the
float arithmetic exercised by the theorems below is exact in both models);
regular expressions from the source are hand-compiled to character-list
scanners with the same matching semantics (noted next to each one);
`None`-able values are `Option`; callable side effects (database, clock,
uuid generation) are threaded explicitly as state or parameters.
-/

/-! ## Python primitives on `List Char` -/

/-- The whitespace characters recognised by Python's `str.strip`, `\s` (ASCII
range; the inputs of interest contain no exotic Unicode whitespace). -/
def isPyWs (c : Char) : Bool :=
  c = ' ' || c = '\t' || c = '\n' || c = '\x0d' || c = '\x0b' || c = '\x0c'

/-- ASCII model of the regex class `\w` (letters, digits, underscore). -/
def isWordCh (c : Char) : Bool :=
  ('a' ≤ c && c ≤ 'z') || ('A' ≤ c && c ≤ 'Z') || c.isDigit || c = '_'

/-- The regex class `[a-z]`. -/
def isLowerAlpha (c : Char) : Bool := 'a' ≤ c && c ≤ 'z'

/-- Python `str.strip()` on a character list. -/
def pyStripL (cs : List Char) : List Char :=
  ((cs.dropWhile isPyWs).reverse.dropWhile isPyWs).reverse

/-- Python `str.strip()`. -/
def pyStrip (s : String) : String := ⟨pyStripL s.data⟩

/-- Python `str.lower()` (ASCII case mapping; the catalogued patterns are all
ASCII). -/
def pyLowerL (cs : List Char) : List Char :=
  cs.map fun c => if 'A' ≤ c && c ≤ 'Z' then Char.ofNat (c.toNat + 32) else c

/-- Is `needle` a contiguous substring of `hay`? -/
def isSubListOf (needle : List Char) : List Char → Bool
  | [] => needle.isPrefixOf []
  | c :: rest => needle.isPrefixOf (c :: rest) || isSubListOf needle rest

/-- Python `needle in haystack` (substring containment). -/
def pyInL (needle hay : List Char) : Bool := isSubListOf needle hay

/-- Python `needle in haystack` on `String`s. -/
def pyIn (needle hay : String) : Bool := pyInL needle.data hay.data

/-- Python `str.replace(old, new)` for a single-character `old` (the only form
the source uses). -/
def pyReplaceChar (old : Char) (new : List Char) (cs : List Char) : List Char :=
  cs.foldr (fun a acc => if a = old then new ++ acc else a :: acc) []

/-- Numeric value of a digit string (Python `int` on a string of digits). -/
def digitsToNat (cs : List Char) : Nat :=
  cs.foldl (fun acc c => acc * 10 + (c.toNat - '0'.toNat)) 0

/-- Python `int(s)` on an optionally signed decimal string: strips whitespace,
accepts an optional `+`/`-` sign followed by one or more digits, and fails
(`ValueError`, modelled as `none`) otherwise. -/
def pyParseInt (cs : List Char) : Option Int :=
  let t := pyStripL cs
  match t with
  | [] => none
  | '+' :: ds => if ds ≠ [] && ds.all Char.isDigit then some (digitsToNat ds) else none
  | '-' :: ds => if ds ≠ [] && ds.all Char.isDigit then some (-(digitsToNat ds : Int)) else none
  | ds => if ds.all Char.isDigit then some (digitsToNat ds) else none

/-- Rendering of a nonnegative integer, as Python `str`. -/
def natToDigits (n : Nat) : List Char := (Nat.toDigits 10 n)

/-- Rendering of an integer, as Python `str`. -/
def intToChars (i : Int) : List Char :=
  if i < 0 then '-' :: natToDigits i.natAbs else natToDigits i.natAbs

/-- The `repr` of a Python float holding the exact value `q`, for the integral
case (`4.0` prints as `"4.0"`).  All float values rendered by the theorems
below are integral; a non-integral value is rendered `num/den`, which is
only a placeholder (that case is never exercised, and no theorem depends
on it). -/
def pyFloatChars (q : ℚ) : List Char :=
  if q.den = 1 then intToChars q.num ++ ['.', '0']
  else intToChars q.num ++ '/' :: natToDigits q.den

/-! ## Word-boundary pattern matching

The guardrail catalogues consist of regexes of a handful of shapes.  Each
shape is compiled to a scanner below; `\b` is the usual word boundary
(`isWordCh` on one side only). -/

/-- A phrase is a list of word tokens joined by `\s+` in the source regex. -/
abbrev Phrase := List (List Char)

/-- Match the token list `toks` (tokens separated by one or more whitespace
characters) at the head of `cs`; return the remainder on success.  Mirrors the
greedy, deterministic behaviour of `tok1\s+tok2\s+…` (tokens never start with
whitespace, so greediness is harmless). -/
def phraseAt : Phrase → List Char → Option (List Char)
  | [], cs => some cs
  | t :: ts, cs =>
    if t.isPrefixOf cs then
      let rest := cs.drop t.length
      match ts with
      | [] => some rest
      | _ =>
        if (rest.takeWhile isPyWs).isEmpty then none
        else phraseAt ts (rest.dropWhile isPyWs)
    else none

/-- Returns `true` when no word character sits immediately to the left (a `\b`
position given that the next character is a word character). -/
def boundaryOk (prev : Option Char) : Bool :=
  match prev with
  | none => true
  | some p => !isWordCh p

/-- Does `rest` begin at a right word boundary (end of string, or a non-word
character)? -/
def rightBoundary (rest : List Char) : Bool :=
  match rest with
  | [] => true
  | c :: _ => !isWordCh c

/-- Scanner for `\b(phrase1|phrase2|…)\b` over `cs`: the regex-search result
(does a match exist anywhere?). -/
def containsPhraseAux (phrases : List Phrase) : Option Char → List Char → Bool
  | _, [] => false
  | prev, c :: rest =>
    (boundaryOk prev &&
      phrases.any fun p =>
        match phraseAt p (c :: rest) with
        | some rem => rightBoundary rem
        | none => false) ||
    containsPhraseAux phrases (some c) rest

/-- Scanner for `re.search(r'\b(p1|p2|…)\b', cs)` as a Boolean. -/
def containsAnyPhrase (phrases : List Phrase) (cs : List Char) : Bool :=
  containsPhraseAux phrases none cs

/-- Scanner for `re.search` for a bare character class: does any character of `cs` belong
to `set`? -/
def containsAnyCharOf (set : List Char) (cs : List Char) : Bool :=
  cs.any (fun c => set.contains c)

/-- Generic regex-search driver: try the position matcher `f` (which receives
the previous character for `\b` tests and the remaining suffix) at every
position, left to right. -/
def scanAux (f : Option Char → List Char → Bool) : Option Char → List Char → Bool
  | _, [] => false
  | prev, c :: rest => f prev (c :: rest) || scanAux f (some c) rest

/-- Search `cs` with position matcher `f`. -/
def containsScan (f : Option Char → List Char → Bool) (cs : List Char) : Bool :=
  scanAux f none cs

/-- Position matcher for `\b\d+\b` (digits are word characters, so both
boundaries force non-word neighbours). -/
def boundedNumberAt (prev : Option Char) (cs : List Char) : Bool :=
  match cs with
  | c :: _ => c.isDigit && boundaryOk prev && rightBoundary (cs.dropWhile Char.isDigit)
  | [] => false

/-- Scanner for `re.search(r'\b\d+\b', cs)`. -/
def containsBoundedNumber (cs : List Char) : Bool := containsScan boundedNumberAt cs

/-- Position matcher for `\d+\s*[ops]\s*\d+` (no backtracking can rescue a
failed maximal digit run, so the greedy reading is exact). -/
def arithAt (ops : List Char) (cs : List Char) : Bool :=
  match cs with
  | c :: _ =>
    c.isDigit &&
      (match (cs.dropWhile Char.isDigit).dropWhile isPyWs with
       | o :: rest2 =>
         ops.contains o &&
           (match rest2.dropWhile isPyWs with
            | d :: _ => d.isDigit
            | [] => false)
       | [] => false)
  | [] => false

/-- Scanner for `re.search(r'\d+\s*[ops]\s*\d+', cs)`. -/
def containsArith (ops : List Char) (cs : List Char) : Bool :=
  containsScan (fun _ t => arithAt ops t) cs

/-- The operator class `[+\-*/×÷]` of the simple-arithmetic patterns. -/
def arithOps : List Char := ['+', '-', '*', '/', '×', '÷']

/-- Scanner for `re.search(r'^\s*(\d+)\s*([+\-*/×÷])\s*(\d+)\s*$', cs)`, returning the
three capture groups.  Every subpattern is deterministic (digit, whitespace
and operator classes are disjoint), so takeWhile/dropWhile compute the unique
match. -/
def simpleArithParse (cs : List Char) : Option (List Char × Char × List Char) :=
  let cs1 := cs.dropWhile isPyWs
  let d1 := cs1.takeWhile Char.isDigit
  let cs2 := cs1.dropWhile Char.isDigit
  if d1.isEmpty then none else
  match cs2.dropWhile isPyWs with
  | [] => none
  | op :: cs4 =>
    if arithOps.contains op then
      let cs5 := cs4.dropWhile isPyWs
      let d2 := cs5.takeWhile Char.isDigit
      let cs6 := cs5.dropWhile Char.isDigit
      if d2.isEmpty then none
      else if (cs6.dropWhile isPyWs).isEmpty then some (d1, op, d2) else none
    else none

/-- Scanner for `re.search(r'^\s*\d+\s*[+\-*/×÷]\s*\d+\s*[+\-*/×÷]\s*\d+', cs)` (anchored
on the left only). -/
def multiOpArith (cs : List Char) : Bool :=
  let cs1 := cs.dropWhile isPyWs
  if (cs1.takeWhile Char.isDigit).isEmpty then false else
  match (cs1.dropWhile Char.isDigit).dropWhile isPyWs with
  | o1 :: r1 =>
    arithOps.contains o1 &&
      (let r2 := r1.dropWhile isPyWs
       if (r2.takeWhile Char.isDigit).isEmpty then false else
       match (r2.dropWhile Char.isDigit).dropWhile isPyWs with
       | o2 :: r3 =>
         arithOps.contains o2 &&
           !((r3.dropWhile isPyWs).takeWhile Char.isDigit).isEmpty
       | [] => false)
  | [] => false

/-- Position matcher for `\b[a-z]\s*[ops]`. -/
def varOpAt (ops : List Char) (prev : Option Char) (cs : List Char) : Bool :=
  match cs with
  | c :: rest =>
    boundaryOk prev && isLowerAlpha c &&
      (match rest.dropWhile isPyWs with
       | o :: _ => ops.contains o
       | [] => false)
  | [] => false

/-- Position matcher for `\b\d*[a-z]\s*[ops]` (only the maximal digit run can
be followed by a letter, so greediness is exact). -/
def coeffVarAt (ops : List Char) (prev : Option Char) (cs : List Char) : Bool :=
  boundaryOk prev &&
    (match cs.dropWhile Char.isDigit with
     | l :: rest =>
       isLowerAlpha l &&
         (match rest.dropWhile isPyWs with
          | o :: _ => ops.contains o
          | [] => false)
     | [] => false) &&
    (match cs with
     | c :: _ => c.isDigit || isLowerAlpha c
     | [] => false)

/-- Position matcher for `\b(p1|p2|…)\s+\d+` (left boundary only, then one or
more whitespace characters, then a digit). -/
def phraseNumAt (phrases : List Phrase) (prev : Option Char) (cs : List Char) : Bool :=
  boundaryOk prev &&
    phrases.any fun p =>
      match phraseAt p cs with
      | some rem =>
        !(rem.takeWhile isPyWs).isEmpty &&
          (match rem.dropWhile isPyWs with
           | d :: _ => d.isDigit
           | [] => false)
      | none => false

/-- Is there a `=` later in the list before any newline?  (`.*[=]` with `.`
not matching `\n`.) -/
def eqAfterNoNewline : List Char → Bool
  | [] => false
  | c :: rest => c = '=' || (c ≠ '\n' && eqAfterNoNewline rest)

/-- Position matcher for `\b(p1|p2|…)\b.*[=]`. -/
def wordThenEqAt (phrases : List Phrase) (prev : Option Char) (cs : List Char) : Bool :=
  boundaryOk prev &&
    phrases.any fun p =>
      match phraseAt p cs with
      | some rem => rightBoundary rem && eqAfterNoNewline rem
      | none => false

/-- Scan for the second word of a `…​.*\b(w)\b` pattern: stop at the first
newline (`.` does not cross lines), track the previous character for the
boundary test. -/
def secondWordScan (phrases : List Phrase) : Option Char → List Char → Bool
  | _, [] => false
  | prev, c :: rest =>
    if c = '\n' then false
    else
      (boundaryOk prev &&
        phrases.any fun p =>
          match phraseAt p (c :: rest) with
          | some rem => rightBoundary rem
          | none => false) ||
      secondWordScan phrases (some c) rest

/-- Position matcher for `\b(first…)(\b?).*\b(second…)\b`; `firstRightB`
records whether the source regex puts a `\b` after the first group.  The
character preceding the gap is the last letter of the first word, so the
second scan starts with a word-character `prev`. -/
def wordThenWordAt (first : List Phrase) (firstRightB : Bool) (second : List Phrase)
    (prev : Option Char) (cs : List Char) : Bool :=
  boundaryOk prev &&
    first.any fun p =>
      match phraseAt p cs with
      | some rem =>
        (!firstRightB || rightBoundary rem) && secondWordScan second (some 'a') rem
      | none => false

/-- Position matcher for `\d+X\d+` with a fixed separator (fractions
`\d+/\d+`, decimals `\d+\.\d+`). -/
def digitSepDigitAt (sep : Char) (cs : List Char) : Bool :=
  match cs with
  | c :: _ =>
    c.isDigit &&
      (match cs.dropWhile Char.isDigit with
       | s :: d :: _ => s = sep && d.isDigit
       | _ => false)
  | [] => false

/-- Position matcher for `\d+\s*%`. -/
def percentNumAt (cs : List Char) : Bool :=
  match cs with
  | c :: _ =>
    c.isDigit &&
      (match (cs.dropWhile Char.isDigit).dropWhile isPyWs with
       | '%' :: _ => true
       | _ => false)
  | [] => false

/-- Scanner for `re.search(r'\d+\s*%|\bpercent\b', cs)`. -/
def percentMatcher (cs : List Char) : Bool :=
  containsScan (fun _ t => percentNumAt t) cs ||
    containsAnyPhrase [[("percent").data]] cs

/-- Position matcher for the structure bonus `(\d+\.|•|\*)\s+` of the output
quality score. -/
def enumMarkerAt (cs : List Char) : Bool :=
  match cs with
  | '•' :: w :: _ => isPyWs w
  | '*' :: w :: _ => isPyWs w
  | c :: _ =>
    c.isDigit &&
      (match cs.dropWhile Char.isDigit with
       | '.' :: w :: _ => isPyWs w
       | _ => false)
  | [] => false

/-! ## `guardrails.py` — pattern catalogues -/

/-- Single-word phrase. -/
def wd (s : String) : Phrase := [s.data]

/-- Two-word phrase (`w1\s+w2` in the source regex). -/
def wd2 (a b : String) : Phrase := [a.data, b.data]

/-- Embedding of `InputFilter.blocked_patterns`, one entry per source regex (alternations
expanded into phrase lists). -/
def blockedPatterns : List (List Phrase) :=
  [ [wd "hack", wd "exploit", wd "attack", wd "malicious"],
    [wd2 "personal" "information", wd2 "private" "information",
      wd2 "confidential" "information"],
    [wd2 "generate" "virus", wd2 "generate" "malware", wd2 "generate" "harmful",
      wd2 "create" "virus", wd2 "create" "malware", wd2 "create" "harmful"] ]

/-- Embedding of `InputFilter.non_math_indicators` (fifteen word-alternation regexes). -/
def nonMathMatchers : List (List Char → Bool) :=
  [ containsAnyPhrase [wd "weather", wd "temperature", wd "climate", wd "rain",
      wd "snow", wd "sunny", wd "cloudy"],
    containsAnyPhrase [wd "cook", wd "recipe", wd "food", wd "eat", wd "drink",
      wd "restaurant", wd "kitchen"],
    containsAnyPhrase [wd "movie", wd "film", wd "actor", wd "actress",
      wd "cinema", wd "theater"],
    containsAnyPhrase [wd "music", wd "song", wd "singer", wd "band",
      wd "album", wd "concert"],
    containsAnyPhrase [wd "car", wd "drive", wd "traffic", wd "road",
      wd "highway", wd "parking"],
    containsAnyPhrase [wd "health", wd "doctor", wd "medicine", wd "hospital",
      wd "sick", wd "disease"],
    containsAnyPhrase [wd "politics", wd "government", wd "president",
      wd "election", wd "vote"],
    containsAnyPhrase [wd "sports", wd "football", wd "basketball", wd "soccer",
      wd "tennis", wd "game"],
    containsAnyPhrase [wd "travel", wd "vacation", wd "hotel", wd "flight",
      wd "airport", wd "tourist"],
    containsAnyPhrase [wd "shopping", wd "store", wd "buy", wd "sell",
      wd "price", wd "money", wd "dollar"],
    containsAnyPhrase [wd "work", wd "job", wd "career", wd "office",
      wd "business", wd "company"],
    containsAnyPhrase [wd "school", wd "teacher", wd "student", wd "class",
      wd "homework", wd "grade"],
    containsAnyPhrase [wd "family", wd "friend", wd "relationship", wd "love",
      wd "marriage"],
    containsAnyPhrase [wd "computer", wd "software", wd "internet",
      wd "website", wd "email"],
    containsAnyPhrase [wd "book", wd "read", wd "write", wd "story",
      wd "novel", wd "author"] ]

/-- Embedding of `InputFilter.math_indicators` (twenty-six regexes, in source order), as
matchers over the lowercased content. -/
def mathIndicatorMatchers : List (List Char → Bool) :=
  [ containsAnyPhrase [wd "solve", wd "calculate", wd "compute", wd "find",
      wd "derive", wd "integrate", wd "differentiate", wd "evaluate",
      wd "simplify", wd "determine"],
    containsAnyPhrase [wd "equation", wd "formula", wd "function", wd "theorem",
      wd "proof", wd "graph", wd "plot", wd "matrix", wd "vector",
      wd "expression"],
    containsAnyPhrase [wd "algebra", wd "calculus", wd "geometry",
      wd "trigonometry", wd "statistics", wd "probability", wd "arithmetic",
      wd "mathematics"],
    containsAnyCharOf ("+-*/=<>\x7b\x7d[]()^%").data,
    containsAnyCharOf ("×÷±≤≥≠≈∈∉⊂⊃∪∩∫∑∏√π∞").data,
    containsBoundedNumber,
    containsArith ("+-*/^×÷%").data,
    fun cs => (simpleArithParse cs).isSome,
    multiOpArith,
    containsAnyPhrase [wd "sin", wd "cos", wd "tan", wd "log", wd "ln",
      wd "exp", wd "sqrt", wd "abs", wd "floor", wd "ceil", wd "round"],
    containsAnyPhrase [wd "sum", wd "integral", wd "derivative", wd "limit",
      wd "factorial", wd "permutation", wd "combination"],
    containsAnyPhrase [wd "differential", wd "partial", wd "equation",
      wd "transform", wd "laplace", wd "fourier", wd "matrix", wd "vector",
      wd "tensor"],
    containsAnyPhrase [wd "eigenvalue", wd "eigenvector", wd "determinant",
      wd "inverse", wd "transpose", wd "orthogonal"],
    containsAnyPhrase [wd "topology", wd "manifold", wd "group", wd "ring",
      wd "field", wd "homomorphism", wd "isomorphism"],
    containsAnyPhrase [wd "convergence", wd "divergence", wd "series",
      wd "sequence", wd "continuity", wd "differentiable"],
    containsAnyPhrase [wd "polynomial", wd "quadratic", wd "linear",
      wd "exponential", wd "logarithmic", wd "rational", wd "irrational"],
    containsAnyPhrase [wd "area", wd "volume", wd "perimeter",
      wd "circumference", wd "radius", wd "diameter", wd "angle",
      wd "triangle", wd "circle", wd "square", wd "rectangle"],
    containsAnyPhrase [wd "mean", wd "median", wd "mode", wd "variance",
      wd2 "standard" "deviation", wd "correlation", wd "probability"],
    containsScan (varOpAt ("=+-*/^").data),
    containsScan (coeffVarAt ("+-*/^").data),
    containsScan (phraseNumAt [wd2 "what" "is", [("how").data, ("much").data,
      ("is").data], wd "calculate"]),
    containsAnyPhrase [wd "math", wd "mathematics", wd "mathematical"],
    containsScan (fun _ t => digitSepDigitAt '/' t),
    containsScan (fun _ t => digitSepDigitAt '.' t),
    percentMatcher,
    containsAnyPhrase [wd "degree", wd "degrees", wd "radian", wd "radians",
      wd "meter", wd "meters", wd "feet", wd "inche", wd "inches", wd "cm",
      wd "mm", wd "kg", wd "gram", wd "grams", wd "second", wd "seconds",
      wd "minute", wd "minutes", wd "hour", wd "hours"] ]

/-- Embedding of `InputFilter._calculate_enhanced_math_score`.  The loop patterns run over
the lowercased content (the `re.IGNORECASE` flag is then redundant); the bonus
patterns run over the strings the source passes them (`content.strip()`,
`content` or `content_lower`, line by line). -/
def calcEnhancedMathScore (content : List Char) : ℚ :=
  let cl := pyLowerL content
  let nonMathMatches := (nonMathMatchers.map fun f => f cl).count true
  if nonMathMatches > 0 then 0
  else
    let total := mathIndicatorMatchers.length
    let hits := (mathIndicatorMatchers.map fun f => f cl).count true
    let base : ℚ := if total > 0 then (hits : ℚ) / total else 0
    let b1 : ℚ := if (simpleArithParse (pyStripL content)).isSome then 5/10 else 0
    let b2 : ℚ := if containsArith arithOps content then 3/10 else 0
    let b3 : ℚ :=
      if containsScan (wordThenEqAt [wd "solve", wd "calculate", wd "find"]) cl
      then 4/10 else 0
    let b4 : ℚ := if containsScan (varOpAt ("=+-*/^").data) content then 3/10 else 0
    let b5 : ℚ :=
      if containsAnyPhrase [wd "derivative", wd "integral", wd "limit", wd "sum"] cl
      then 4/10 else 0
    let b6 : ℚ :=
      if containsScan (wordThenWordAt [wd "differential", wd "partial"] false
        [wd "equation"]) cl then 5/10 else 0
    let b7 : ℚ :=
      if containsAnyPhrase [wd "laplace", wd "fourier", wd "transform"] cl
      then 4/10 else 0
    let b8 : ℚ :=
      if containsAnyPhrase [wd "matrix", wd "vector", wd "eigenvalue",
        wd "determinant"] cl then 4/10 else 0
    let b9 : ℚ :=
      if containsScan (wordThenWordAt [wd "area", wd "volume", wd "perimeter"]
        true [wd "circle", wd "triangle", wd "rectangle"]) cl then 3/10 else 0
    let b10 : ℚ := if percentMatcher cl then 2/10 else 0
    min (base + b1 + b2 + b3 + b4 + b5 + b6 + b7 + b8 + b9 + b10) 1

/-- The character class the input cleaner keeps besides `\w` and `\s`
(`_clean_content`, second substitution). -/
def cleanKeepChars : List Char := ("+-*/=<>()\x7b\x7d[].,?!").data

/-- Characters *not* counted as special by
`InputFilter._contains_excessive_special_chars`
(`[a-zA-Z0-9\s+\-*/=<>(){}[\].,?!]`). -/
def notSpecialCh (c : Char) : Bool :=
  ('a' ≤ c && c ≤ 'z') || ('A' ≤ c && c ≤ 'Z') || c.isDigit || isPyWs c ||
    cleanKeepChars.contains c

/-- Embedding of `InputFilter._contains_excessive_special_chars`: more than 30 % of the
characters fall outside the allowed class.  (The source compares against the
float `len(content) * 0.3`; the comparison is modelled exactly in `ℚ`, which
agrees with the float on every length arising here.) -/
def excessiveSpecialChars (cs : List Char) : Bool :=
  decide ((cs.countP (fun c => !notSpecialCh c) : ℚ) > (cs.length : ℚ) * 3/10)

/-- Collapse every whitespace run to a single space
(`re.sub(r'\s+', ' ', content)`). -/
def collapseWs : List Char → List Char
  | [] => []
  | c :: rest =>
    if isPyWs c then ' ' :: collapseWs (rest.dropWhile isPyWs)
    else c :: collapseWs rest
  termination_by cs => cs.length
  decreasing_by
    · exact Nat.lt_succ_of_le (List.dropWhile_sublist _ (l := rest)).length_le
    · simp

/-- Embedding of `InputFilter._clean_content`: collapse whitespace, drop characters outside
`[\w\s+\-*/=<>(){}[\].,?!]`, strip. -/
def cleanContent (cs : List Char) : List Char :=
  pyStripL ((collapseWs cs).filter
    (fun c => isWordCh c || isPyWs c || cleanKeepChars.contains c))

/-! ## `guardrails.py` — `FilterResult` and the two `process` functions -/

/-- Embedding of `FilterResult` (confidence is a Python float, modelled in `ℚ`). -/
structure FilterResult where
  is_safe : Bool
  content : String
  message : String
  issues : List String
  confidence : ℚ
  deriving Repr, DecidableEq

/-- Embedding of `InputFilter.process` (`guardrails.py`, lines 108–189): validation order is
empty → truncate-if-long → too-short → blocked patterns → math score →
special-character check → clean → safety decision. -/
def inputProcess (input : String) : FilterResult :=
  let cs0 := input.data
  if (pyStripL cs0).isEmpty then
    { is_safe := false, content := "", message := "Empty query is not allowed",
      issues := ["empty_content"], confidence := 1 }
  else
    let cs1 := pyStripL cs0
    let tooLong := cs1.length > 1000
    let cs := if tooLong then cs1.take 1000 else cs1
    let issues1 : List String := if tooLong then ["content_too_long"] else []
    let conf1 : ℚ := if tooLong then 1 - 1/10 else 1
    if cs.length < 3 then
      { is_safe := false, content := ⟨cs⟩, message := "Query is too short",
        issues := ["content_too_short"], confidence := 1 }
    else if blockedPatterns.any (fun p => containsAnyPhrase p (pyLowerL cs)) then
      { is_safe := false, content := ⟨cs⟩,
        message := "Query contains potentially harmful content",
        issues := ["blocked_pattern"], confidence := 1 }
    else if calcEnhancedMathScore cs < 2/10 then
      { is_safe := false, content := ⟨cs⟩,
        message :=
          "Please enter a valid math question. Only mathematical questions are allowed.",
        issues := ["non_mathematical"], confidence := 0 }
    else
      let excess := excessiveSpecialChars cs
      let issues2 := issues1 ++ (if excess then ["excessive_special_chars"] else [])
      let conf2 := conf1 - (if excess then 2/10 else 0)
      let cleaned := cleanContent cs
      let safe := decide (conf2 > 1/2) && !(issues2.contains "blocked_pattern")
      { is_safe := safe, content := ⟨cleaned⟩,
        message := if safe then "Content passed safety checks"
          else "Content failed safety checks",
        issues := issues2, confidence := max 0 conf2 }

/-- Embedding of `OutputFilter.blocked_phrases` (refusal templates). -/
def outputBlockedPhrases : List (List Char) :=
  [ ("I cannot help with").data,
    ("I\x27m not able to assist").data,
    ("This request violates").data,
    ("I can\x27t provide information about").data ]

/-- Embedding of `OutputFilter.quality_indicators` (five regexes, source order), as matchers
over the lowercased content (`re.IGNORECASE`; the two character-class patterns
are case-insensitive anyway). -/
def qualityMatchers : List (List Char → Bool) :=
  [ containsAnyPhrase [wd "solution", wd "answer", wd "result", wd "calculation"],
    containsAnyPhrase [wd "step", wd "method", wd "approach", wd "process"],
    containsAnyPhrase [wd "therefore", wd "thus", wd "hence", wd "so"],
    containsAnyCharOf ("+-*/=").data,
    containsBoundedNumber ]

/-- Embedding of `OutputFilter._calculate_quality_score`. -/
def calcQualityScore (cs : List Char) : ℚ :=
  let cl := pyLowerL cs
  let hits := (qualityMatchers.map fun f => f cl).count true
  let base : ℚ := (hits : ℚ) / qualityMatchers.length
  let base2 := base + (if containsScan (fun _ t => enumMarkerAt t) cs then 2/10 else 0)
  let base3 := base2 +
    (if containsAnyCharOf ("+-*/=<>\x7b\x7d[]()").data cs then 1/10 else 0)
  min 1 base3

/-- Embedding of `OutputFilter._contains_harmful_content` (three regexes, `re.IGNORECASE`,
modelled over the lowercased content). -/
def containsHarmfulContent (cs : List Char) : Bool :=
  let cl := pyLowerL cs
  containsAnyPhrase [wd2 "personal" "information", wd2 "private" "information",
      wd2 "confidential" "information"] cl ||
    containsAnyPhrase [wd "hack", wd "exploit", wd "attack"] cl ||
    containsAnyPhrase [wd "illegal", wd "unlawful", wd "criminal"] cl

/-- Replace every run of `threshold`-or-more copies of `c` by `rep`, keeping
shorter runs (`re.sub(r'c{t,}', rep, …)`). -/
def collapseRunsGe (c : Char) (threshold : Nat) (rep : List Char) :
    List Char → List Char
  | [] => []
  | x :: rest =>
    if x = c then
      let run := 1 + (rest.takeWhile (· = c)).length
      (if run ≥ threshold then rep else List.replicate run c) ++
        collapseRunsGe c threshold rep (rest.dropWhile (· = c))
    else x :: collapseRunsGe c threshold rep rest
  termination_by cs => cs.length
  decreasing_by
    · exact Nat.lt_succ_of_le (List.dropWhile_sublist _ (l := rest)).length_le
    · simp

/-- Embedding of `OutputFilter._clean_output`: squeeze newline runs of three or more to two,
space runs of two or more to one, then strip. -/
def cleanOutput (cs : List Char) : List Char :=
  pyStripL (collapseRunsGe ' ' 2 [' '] (collapseRunsGe '\n' 3 ['\n', '\n'] cs))

/-- Embedding of `OutputFilter.process` (`guardrails.py`, lines 287–355): empty →
length deductions (with `...`-suffixed truncation) → one deduction per matched
refusal phrase → quality deduction → harmful-content rejection → clean →
safety decision at the 0.4 threshold. -/
def outputProcess (input : String) : FilterResult :=
  let cs0 := input.data
  if (pyStripL cs0).isEmpty then
    { is_safe := false, content := "", message := "Empty response is not allowed",
      issues := ["empty_response"], confidence := 1 }
  else
    let cs1 := pyStripL cs0
    let tooShort := cs1.length < 20
    let issuesA : List String := if tooShort then ["response_too_short"] else []
    let confA : ℚ := 1 - (if tooShort then 3/10 else 0)
    let tooLong := cs1.length > 2000
    let cs := if tooLong then cs1.take 2000 ++ ("...").data else cs1
    let issuesB := issuesA ++ (if tooLong then ["response_too_long"] else [])
    let confB := confA - (if tooLong then 1/10 else 0)
    let refusals :=
      (outputBlockedPhrases.filter fun p => pyInL (pyLowerL p) (pyLowerL cs)).length
    let issuesC := issuesB ++ List.replicate refusals "refusal_pattern"
    let confC := confB - refusals * ((4 : ℚ)/10)
    let lowQ := calcQualityScore cs < 3/10
    let issuesD := issuesC ++ (if lowQ then ["low_quality"] else [])
    let confD := confC - (if lowQ then 3/10 else 0)
    if containsHarmfulContent cs then
      { is_safe := false, content := ⟨cs⟩,
        message := "Response contains potentially harmful content",
        issues := ["harmful_content"], confidence := 0 }
    else
      let cleaned := cleanOutput cs
      let safe := decide (confD > 4/10)
      { is_safe := safe, content := ⟨cleaned⟩,
        message := if safe then "Response passed safety checks"
          else "Response has quality or safety issues",
        issues := issuesD, confidence := max 0 confD }

/-! ## `llm_service.py` — the deterministic fallback solver

`LLMService._comprehensive_fallback_solution` and its helpers.  The Gemini
API paths are external capabilities; the fallback is the pure function the
theorems below address. -/

/-- Scanner for `re.search(r'([^=]+)=([^=]+)', s)`: the first position admitting a
nonempty run of non-`=` characters, a literal `=`, and a nonempty run of
non-`=` characters.  Within a failed attempt no backtracking can succeed
(both runs are maximal against the disjoint `=`), so the engine effectively
resumes after the failing `=`. -/
def reSearchEq : List Char → Option (List Char × List Char)
  | [] => none
  | c :: rest =>
    let cs := c :: rest
    let r1 := cs.takeWhile (fun x => x ≠ '=')
    match h : cs.dropWhile (fun x => x ≠ '=') with
    | [] => none
    | _ :: tail =>
      if r1.isEmpty then reSearchEq tail
      else
        let r2 := tail.takeWhile (fun x => x ≠ '=')
        if r2.isEmpty then reSearchEq tail else some (r1, r2)
  termination_by cs => cs.length
  decreasing_by
    all_goals
      have hle := (List.dropWhile_sublist (fun x => decide (x ≠ '='))
        (l := c :: rest)).length_le
      rw [h] at hle
      simp at hle ⊢
      omega

/-- Scanner for `re.match(r'^\s*(\d*)\s*x\s*([+-])\s*(\d+)\s*$', left)` returning the
capture groups (coefficient digits — possibly empty —, sign, constant
digits). -/
def linearPatternMatch (cs : List Char) : Option (List Char × Char × List Char) :=
  let t1 := cs.dropWhile isPyWs
  let d1 := t1.takeWhile Char.isDigit
  match (t1.dropWhile Char.isDigit).dropWhile isPyWs with
  | 'x' :: t3 =>
    match t3.dropWhile isPyWs with
    | sign :: t4 =>
      if sign = '+' || sign = '-' then
        let t5 := t4.dropWhile isPyWs
        let d2 := t5.takeWhile Char.isDigit
        if d2.isEmpty then none
        else if ((t5.dropWhile Char.isDigit).dropWhile isPyWs).isEmpty then
          some (d1, sign, d2)
        else none
      else none
    | [] => none
  | _ => none

/-- The generic-method template of `_solve_linear_equation_pattern` (rendered
when the structured parse or the integer arithmetic fails). -/
def genericEquationTemplate (left right question : String) : String :=
  "## Step-by-Step Solution for: " ++ question ++
  "\n\n**Given equation:** " ++ left ++ " = " ++ right ++
  "\n\n**Step 1:** Identify the equation structure" ++
  "\nThis is a linear equation in one variable." ++
  "\n\n**Step 2:** Apply algebraic principles" ++
  "\n- Move all terms with the variable to one side" ++
  "\n- Move all constants to the other side" ++
  "\n- Use inverse operations (addition/subtraction, then multiplication/division)" ++
  "\n\n**Step 3:** Solve systematically" ++
  "\n- Combine like terms" ++
  "\n- Isolate the variable" ++
  "\n- Simplify the result" ++
  "\n\n**Step 4:** Verify your answer" ++
  "\nSubstitute your solution back into the original equation to check." ++
  "\n\n**General approach:** For equations like ax + b = c, subtract b from both sides, then divide by a."

/-- The success f-string of `_solve_linear_equation_pattern` (source lines
262–281), rendered from the parsed coefficient, constant, right-hand value
and the computed solution. -/
def linearRenderTemplate (left right question : String)
    (coeff constant step1 rv : Int) (solution check : ℚ) : String :=
  "## Step-by-Step Solution for: " ++ question ++
  "\n\n**Given equation:** " ++ left ++ " = " ++ right ++
  "\n\n**Step 1:** Isolate the variable term" ++
  "\nMove the constant to the right side:\n" ++ ⟨intToChars coeff⟩ ++
  "x = " ++ right ++ " - (" ++ ⟨intToChars constant⟩ ++ ")\n" ++
  ⟨intToChars coeff⟩ ++ "x = " ++ ⟨intToChars step1⟩ ++
  "\n\n**Step 2:** Solve for x" ++
  "\nDivide both sides by " ++ ⟨intToChars coeff⟩ ++ ":\nx = " ++
  ⟨intToChars step1⟩ ++ " ÷ " ++ ⟨intToChars coeff⟩ ++ "\nx = " ++
  ⟨pyFloatChars solution⟩ ++
  "\n\n**Step 3:** Verify the solution" ++
  "\nSubstitute x = " ++ ⟨pyFloatChars solution⟩ ++
  " back into the original equation:\n" ++ ⟨intToChars coeff⟩ ++ "(" ++
  ⟨pyFloatChars solution⟩ ++ ") + (" ++ ⟨intToChars constant⟩ ++ ") = " ++
  ⟨pyFloatChars check⟩ ++ "\n" ++ ⟨pyFloatChars check⟩ ++ " = " ++
  ⟨intToChars rv⟩ ++ " ✓" ++
  "\n\n**Answer:** x = " ++ ⟨pyFloatChars solution⟩

/-- Embedding of `LLMService._solve_linear_equation_pattern`: structured parse of
`coefficient·x ± constant = value`; on success an exact three-step derivation
with substitution check, on any failure (no regex match, `ValueError` from
`int(...)`, `ZeroDivisionError` from a zero coefficient — all caught by the
source's `except`) the generic template.  (A float `OverflowError` on
astronomically large operands is also caught by the same `except`; `ℚ`
division does not overflow, so that corner selects the rendered template
instead — both outputs are non-empty templates and no theorem below depends
on it.) -/
def solveLinearEquationPattern (left right question : String) : String :=
  match linearPatternMatch (left.data.filter (fun c => c ≠ ' ')) with
  | some (coeffStr, sign, constStr) =>
    let coeff : Int := if coeffStr.isEmpty then 1 else (digitsToNat coeffStr : Int)
    let constant : Int :=
      if sign = '-' then -(digitsToNat constStr : Int) else (digitsToNat constStr : Int)
    match pyParseInt right.data with
    | some rv =>
      if coeff = 0 then genericEquationTemplate left right question
      else
        let step1 : Int := rv - constant
        let solution : ℚ := (step1 : ℚ) / (coeff : ℚ)
        let check : ℚ := (coeff : ℚ) * solution + (constant : ℚ)
        linearRenderTemplate left right question coeff constant step1 rv
          solution check
    | none => genericEquationTemplate left right question
  | none => genericEquationTemplate left right question

/-- Embedding of `LLMService._solve_general_math_comprehensive` (the default
problem-solving-strategy template). -/
def solveGeneralMathComprehensive (question : String) : String :=
  "## Step-by-Step Mathematical Analysis for: " ++ question ++
  "\n\n**Problem-Solving Strategy:**" ++
  "\n\n**Step 1: Understand the Problem**" ++
  "\n- Read the question carefully" ++
  "\n- Identify what is being asked" ++
  "\n- Note any given information or constraints" ++
  "\n\n**Step 2: Identify Mathematical Concepts**" ++
  "\n- Determine which area of mathematics applies" ++
  "\n- Recall relevant formulas, theorems, or principles" ++
  "\n- Consider what tools or methods are needed" ++
  "\n\n**Step 3: Plan Your Approach**" ++
  "\n- Break the problem into smaller, manageable parts" ++
  "\n- Decide on the sequence of steps to follow" ++
  "\n- Consider if there are multiple solution methods" ++
  "\n\n**Step 4: Execute the Solution**" ++
  "\n- Work through each step systematically" ++
  "\n- Show all calculations and reasoning" ++
  "\n- Keep track of units and significant figures" ++
  "\n\n**Step 5: Check and Verify**" ++
  "\n- Review your work for errors" ++
  "\n- Verify that your answer makes sense" ++
  "\n- Consider if there are alternative approaches" ++
  "\n\n**Step 6: Communicate the Result**" ++
  "\n- State your final answer clearly" ++
  "\n- Include appropriate units or context" ++
  "\n- Explain what the result means if applicable" ++
  "\n\nThis systematic approach ensures thorough problem-solving for any mathematical question."

/-- The hard-coded `3x + 7 = 10` answer of `_solve_equation_comprehensive`. -/
def eq3x7Template : String :=
  "## Step-by-Step Solution for: 3x + 7 = 10" ++
  "\n\n**Given equation:** 3x + 7 = 10" ++
  "\n\n**Step 1:** Subtract 7 from both sides" ++
  "\n3x + 7 - 7 = 10 - 7" ++
  "\n3x = 3" ++
  "\n\n**Step 2:** Divide both sides by 3" ++
  "\n3x ÷ 3 = 3 ÷ 3" ++
  "\nx = 1" ++
  "\n\n**Step 3:** Verify the solution" ++
  "\nSubstitute x = 1 back into the original equation:" ++
  "\n3(1) + 7 = 3 + 7 = 10 ✓" ++
  "\n\n**Answer:** x = 1"

/-- Embedding of `LLMService._solve_equation_comprehensive`. -/
def solveEquationComprehensive (question : String) : String :=
  if pyIn "3x + 7 = 10" question || pyIn "3x+7=10" question then eq3x7Template
  else
    match reSearchEq question.data with
    | none => solveGeneralMathComprehensive question
    | some (l, r) =>
      solveLinearEquationPattern (pyStrip ⟨l⟩) (pyStrip ⟨r⟩) question

/-- Embedding of `LLMService._is_simple_arithmetic`:
`re.search(r'^\s*\d+\s*[+\-*/×÷]\s*\d+\s*$', question.strip())`. -/
def isSimpleArithmetic (question : String) : Bool :=
  (simpleArithParse (pyStripL question.data)).isSome

/-- Scanner for `re.search(r'(\d+)\s*([+\-*/×÷])\s*(\d+)', s)` with its capture groups:
scan positions left to right; at a digit, the maximal run followed by
optional whitespace, an operator and a further digit run is the unique
possible match (shortening a maximal run cannot help). -/
def arithSearch : List Char → Option (List Char × Char × List Char)
  | [] => none
  | c :: rest =>
    if c.isDigit then
      let d1 := (c :: rest).takeWhile Char.isDigit
      match ((c :: rest).dropWhile Char.isDigit).dropWhile isPyWs with
      | op :: after2 =>
        if arithOps.contains op then
          let d2 := (after2.dropWhile isPyWs).takeWhile Char.isDigit
          if d2.isEmpty then arithSearch rest else some (d1, op, d2)
        else arithSearch rest
      | [] => arithSearch rest
    else arithSearch rest

/-- The division-by-zero answer of `_solve_arithmetic_comprehensive`. -/
def divisionByZeroTemplate (question : String) : String :=
  "## Solution for: " ++ question ++
  "\n\n**Error:** Division by zero is undefined in mathematics." ++
  "\nYou cannot divide any number by zero."

/-- The shared success template of `_solve_arithmetic_comprehensive`. -/
def arithAnswerTemplate (question : String) (n1 : Int) (opC : Char) (n2 : Int)
    (resultS operation explanation : String) : String :=
  "## Step-by-Step Solution for: " ++ question ++
  "\n\n**Problem:** " ++ ⟨intToChars n1⟩ ++ " " ++ String.singleton opC ++ " " ++
  ⟨intToChars n2⟩ ++
  "\n\n**Step 1:** Identify the operation" ++
  "\nThis is a " ++ operation ++ " problem." ++
  "\n\n**Step 2:** Apply the operation" ++
  "\n" ++ explanation ++ ":\n" ++ ⟨intToChars n1⟩ ++ " " ++
  String.singleton opC ++ " " ++ ⟨intToChars n2⟩ ++ " = " ++ resultS ++
  "\n\n**Step 3:** Verify the result" ++
  "\nThe calculation is correct: " ++ resultS ++
  "\n\n**Answer:** " ++ resultS

/-- The operator dispatch of `_solve_arithmetic_comprehensive` (source lines
323–362): division by zero returns the explicit error template (no numeric
result); `+`, `-`, `*` compute in `ℤ`, `/` in exact division (`ℚ`, the model
of Python float division). -/
def arithBranch (question : String) (num1 num2 : Int) (opC : Char) : String :=
  if opC = '+' then
      arithAnswerTemplate question num1 opC num2 ⟨intToChars (num1 + num2)⟩
        "addition" ("Add " ++ ⟨intToChars num1⟩ ++ " and " ++ ⟨intToChars num2⟩)
    else if opC = '-' then
      arithAnswerTemplate question num1 opC num2 ⟨intToChars (num1 - num2)⟩
        "subtraction"
        ("Subtract " ++ ⟨intToChars num2⟩ ++ " from " ++ ⟨intToChars num1⟩)
    else if opC = '*' then
      arithAnswerTemplate question num1 opC num2 ⟨intToChars (num1 * num2)⟩
        "multiplication"
        ("Multiply " ++ ⟨intToChars num1⟩ ++ " by " ++ ⟨intToChars num2⟩)
    else if opC = '/' then
      if num2 = 0 then divisionByZeroTemplate question
      else
        arithAnswerTemplate question num1 opC num2
          ⟨pyFloatChars ((num1 : ℚ) / (num2 : ℚ))⟩ "division"
          ("Divide " ++ ⟨intToChars num1⟩ ++ " by " ++ ⟨intToChars num2⟩)
    else
      "## Solution for: " ++ question ++ "\n\nUnsupported operation: " ++
        String.singleton opC

/-- Embedding of `LLMService._solve_arithmetic_comprehensive`: extract the first
two-operand expression from the stripped question; `×`/`÷` are normalised by
`op_map` before the operator dispatch of `arithBranch`. -/
def solveArithmeticComprehensive (question : String) : String :=
  match arithSearch (pyStripL question.data) with
  | some (d1, op, d2) =>
    let num1 : Int := digitsToNat d1
    let num2 : Int := digitsToNat d2
    let opC := if op = '×' then '*' else if op = '÷' then '/' else op
    arithBranch question num1 num2 opC
  | none =>
    "## Solution for: " ++ question ++ "\n\nCould not parse the arithmetic expression."

/-- Embedding of `LLMService._solve_derivative_comprehensive`. -/
def solveDerivativeComprehensive (question : String) : String :=
  "## Step-by-Step Solution for: " ++ question ++
  "\n\n**Problem Type:** Differentiation" ++
  "\n\n**Step 1:** Identify the function" ++
  "\nExtract the function to be differentiated from the question." ++
  "\n\n**Step 2:** Determine the appropriate rule" ++
  "\nCommon differentiation rules:" ++
  "\n- Power rule: d/dx(x^n) = n·x^(n-1)" ++
  "\n- Constant rule: d/dx(c) = 0" ++
  "\n- Sum rule: d/dx(f + g) = f' + g'" ++
  "\n- Product rule: d/dx(fg) = f'g + fg'" ++
  "\n- Chain rule: d/dx(f(g(x))) = f'(g(x))·g'(x)" ++
  "\n\n**Step 3:** Apply the rule step by step" ++
  "\nWork through the differentiation systematically." ++
  "\n\n**Step 4:** Simplify the result" ++
  "\nCombine like terms and write in standard form." ++
  "\n\n**Example:** For f(x) = x^2:" ++
  "\nUsing the power rule: d/dx(x^2) = 2x^(2-1) = 2x"

/-- Embedding of `LLMService._solve_integral_comprehensive`. -/
def solveIntegralComprehensive (question : String) : String :=
  "## Step-by-Step Solution for: " ++ question ++
  "\n\n**Problem Type:** Integration" ++
  "\n\n**Step 1:** Identify the integrand" ++
  "\nExtract the function to be integrated." ++
  "\n\n**Step 2:** Choose the integration method" ++
  "\nCommon integration techniques:" ++
  "\n- Power rule: ∫x^n dx = x^(n+1)/(n+1) + C (n ≠ -1)" ++
  "\n- Substitution method" ++
  "\n- Integration by parts: ∫u dv = uv - ∫v du" ++
  "\n\n**Step 3:** Apply the method" ++
  "\nWork through the integration step by step." ++
  "\n\n**Step 4:** Add the constant of integration" ++
  "\nFor indefinite integrals, always add + C." ++
  "\n\n**Example:** For ∫x^2 dx:" ++
  "\nUsing the power rule: ∫x^2 dx = x^3/3 + C"

/-- Embedding of `LLMService._solve_geometry_comprehensive`. -/
def solveGeometryComprehensive (question : String) : String :=
  "## Step-by-Step Solution for: " ++ question ++
  "\n\n**Problem Type:** Geometry" ++
  "\n\n**Step 1:** Identify the geometric shape and what's being asked" ++
  "\nDetermine the shape (circle, triangle, rectangle, etc.) and the required measurement." ++
  "\n\n**Step 2:** Recall the relevant formula" ++
  "\nCommon formulas:" ++
  "\n- Circle: Area = πr², Circumference = 2πr" ++
  "\n- Rectangle: Area = length × width, Perimeter = 2(length + width)" ++
  "\n- Triangle: Area = ½ × base × height" ++
  "\n- Square: Area = side², Perimeter = 4 × side" ++
  "\n\n**Step 3:** Substitute the known values" ++
  "\nPlug the given measurements into the appropriate formula." ++
  "\n\n**Step 4:** Calculate the result" ++
  "\nPerform the arithmetic to get the final answer." ++
  "\n\n**Step 5:** Include appropriate units" ++
  "\nMake sure your answer has the correct units (square units for area, linear units for perimeter)." ++
  "\n\n**Example:** For a circle with radius 5:" ++
  "\nArea = πr² = π(5)² = 25π ≈ 78.54 square units"

/-- Embedding of `LLMService._solve_percentage_comprehensive`. -/
def solvePercentageComprehensive (question : String) : String :=
  "## Step-by-Step Solution for: " ++ question ++
  "\n\n**Problem Type:** Percentage Calculation" ++
  "\n\n**Step 1:** Identify what type of percentage problem this is" ++
  "\n- Finding a percentage of a number: What is 25% of 80?" ++
  "\n- Finding what percentage one number is of another: What % is 15 of 60?" ++
  "\n- Finding the whole when given a part and percentage: 20 is 25% of what number?" ++
  "\n\n**Step 2:** Choose the appropriate formula" ++
  "\n- Part = Whole × (Percentage ÷ 100)" ++
  "\n- Percentage = (Part ÷ Whole) × 100" ++
  "\n- Whole = Part ÷ (Percentage ÷ 100)" ++
  "\n\n**Step 3:** Substitute the known values" ++
  "\nReplace the variables with the given numbers." ++
  "\n\n**Step 4:** Calculate step by step" ++
  "\nPerform the arithmetic operations in order." ++
  "\n\n**Step 5:** Verify and format the answer" ++
  "\nCheck if the result makes sense and include the % symbol if appropriate." ++
  "\n\n**Example:** To find 25% of 80:" ++
  "\n25% of 80 = 80 × (25 ÷ 100) = 80 × 0.25 = 20"

/-- Embedding of `LLMService._solve_general_arithmetic`. -/
def solveGeneralArithmetic (question : String) : String :=
  "## Step-by-Step Solution for: " ++ question ++
  "\n\n**Problem Type:** Arithmetic Calculation" ++
  "\n\n**Step 1:** Identify the numbers and operations" ++
  "\nLook for numerical values and mathematical operations in the problem." ++
  "\n\n**Step 2:** Determine the order of operations" ++
  "\nFollow PEMDAS/BODMAS:" ++
  "\n- Parentheses/Brackets first" ++
  "\n- Exponents/Orders" ++
  "\n- Multiplication and Division (left to right)" ++
  "\n- Addition and Subtraction (left to right)" ++
  "\n\n**Step 3:** Perform the calculations step by step" ++
  "\nWork through each operation systematically." ++
  "\n\n**Step 4:** Check your work" ++
  "\nVerify that your calculations are correct." ++
  "\n\n**Example approach:** For \"15 + 3 × 4\":" ++
  "\nFirst: 3 × 4 = 12" ++
  "\nThen: 15 + 12 = 27"

/-- The geometry-vocabulary substrings of the dispatcher (checked with
Python's `in`, i.e. plain substring containment). -/
def geometryWordList : List String :=
  ["area", "volume", "circumference", "perimeter", "circle", "triangle",
   "rectangle"]

/-- The operator characters of the dispatcher's residual-arithmetic branch. -/
def generalOpList : List String := ["+", "-", "*", "/", "×", "÷"]

/-- The operation words of the dispatcher's residual-arithmetic branch. -/
def generalOpWordList : List String :=
  ["add", "subtract", "multiply", "divide", "plus", "minus", "times"]

/-- Embedding of `LLMService._comprehensive_fallback_solution`: the full dispatcher, in
source priority order (equation, simple arithmetic, derivative, integral,
geometry, percentage, residual operators, default strategy). -/
def comprehensiveFallbackSolution (question : String) : String :=
  let ql : List Char := pyLowerL question.data
  if pyIn "=" question then solveEquationComprehensive question
  else if isSimpleArithmetic question then solveArithmeticComprehensive question
  else if pyInL ("derivative").data ql || pyInL ("differentiate").data ql then
    solveDerivativeComprehensive question
  else if pyInL ("integral").data ql || pyInL ("integrate").data ql then
    solveIntegralComprehensive question
  else if geometryWordList.any (fun w => pyInL w.data ql) then
    solveGeometryComprehensive question
  else if pyIn "%" question || pyInL ("percent").data ql then
    solvePercentageComprehensive question
  else if generalOpList.any (fun o => pyIn o question) ||
      generalOpWordList.any (fun w => pyInL w.data ql) then
    solveGeneralArithmetic question
  else solveGeneralMathComprehensive question

/-! ## `google_search.py` / `web_search.py` / `routes.py` — references and
routing -/

/-- Embedding of `GoogleSearchResult` (`google_search.py`). -/
structure GoogleSearchResult where
  title : String
  snippet : String
  link : String
  display_link : String
  deriving Repr, DecidableEq

/-- Embedding of `GoogleSearchResponse` (`google_search.py`; the wall-clock `search_time`
field carries no logic and is dropped). -/
structure GoogleSearchResponse where
  query : String
  results : List GoogleSearchResult
  total_results : Nat
  used_google_search : Bool := true
  deriving Repr, DecidableEq

/-- A reference dictionary produced by
`GoogleSearchService.extract_references`. -/
structure GoogleRef where
  title : String
  url : String
  source : String
  snippet : String
  deriving Repr, DecidableEq

/-- Embedding of `GoogleSearchService.extract_references`: empty input gives `[]`,
otherwise the top three results become reference dictionaries with a
100-character-truncated snippet. -/
def extractReferences (resp : GoogleSearchResponse) : List GoogleRef :=
  if resp.results.isEmpty then []
  else
    (resp.results.take 3).map fun r =>
      { title := r.title
        url := r.link
        source := "Google Search"
        snippet :=
          if r.snippet.length > 100 then ⟨r.snippet.data.take 100⟩ ++ "..."
          else r.snippet }

/-- A reference dictionary produced by
`WebSearchAgent._generate_dynamic_references`. -/
structure LocalRef where
  title : String
  url : String
  description : String
  deriving Repr, DecidableEq

/-- Embedding of `query.replace(' ', '+')`. -/
def urlPlus (q : String) : String := ⟨pyReplaceChar ' ' ("+").data q.data⟩

/-- Embedding of `query.replace(' ', '+').replace('=', '%3D')`. -/
def urlPlusEq (q : String) : String :=
  ⟨pyReplaceChar '=' ("%3D").data (pyReplaceChar ' ' ("+").data q.data)⟩

/-- Embedding of `WebSearchAgent._generate_dynamic_references` (its `results` parameter is
never read by the source and is dropped here; `routes.py` passes `[]`).
Every branch builds a literal three-element list and returns
`references[:3]`. -/
def generateDynamicReferences (query : String) : List LocalRef :=
  let ql := pyLowerL query.data
  let references : List LocalRef :=
    if pyInL ("solve").data ql && pyIn "=" query then
      [ { title := "Equation Solver: " ++ query
          url := "https://www.wolframalpha.com/input/?i=" ++ urlPlusEq query
          description := "Step-by-step algebraic solution with verification" },
        { title := "Algebra Methods and Techniques"
          url := "https://www.khanacademy.org/math/algebra/x2f8bb11595b61c86:solve-equations"
          description := "Comprehensive guide to solving linear equations" },
        { title := "Equation Verification Calculator"
          url := "https://www.mathway.com/Algebra"
          description := "Verify your solution and explore alternative methods" } ]
    else if pyInL ("derivative").data ql then
      [ { title := "Derivative Calculator: " ++ query
          url := "https://www.wolframalpha.com/input/?i=derivative+" ++ urlPlus query
          description := "Symbolic differentiation with step-by-step process" },
        { title := "Differentiation Rules Reference"
          url := "https://www.khanacademy.org/math/calculus-1/cs1-derivatives-definition-and-basic-rules"
          description := "Power rule, product rule, and chain rule explanations" },
        { title := "Calculus Problem Solver"
          url := "https://www.mathway.com/Calculus"
          description := "Interactive derivative calculator with graphing" } ]
    else if pyInL ("integral").data ql || pyInL ("integrate").data ql then
      [ { title := "Integration Calculator: " ++ query
          url := "https://www.wolframalpha.com/input/?i=integrate+" ++ urlPlus query
          description := "Symbolic integration with detailed steps" },
        { title := "Integration Techniques Guide"
          url := "https://www.khanacademy.org/math/calculus-2/cs2-integration-techniques"
          description := "Substitution, integration by parts, and more" },
        { title := "Integral Table and Reference"
          url := "https://www.integral-table.com/"
          description := "Comprehensive table of common integrals" } ]
    else if [("area" : String), "volume", "circumference", "perimeter"].any
        (fun w => pyInL w.data ql) then
      [ { title := "Geometry Calculator: " ++ query
          url := "https://www.wolframalpha.com/input/?i=" ++ urlPlus query
          description := "Geometric calculations with formulas and diagrams" },
        { title := "Geometry Formulas Reference"
          url := "https://www.khanacademy.org/math/geometry"
          description := "Complete guide to geometric shapes and formulas" },
        { title := "Interactive Geometry Tool"
          url := "https://www.geogebra.org/geometry"
          description := "Visual geometry calculator and construction tool" } ]
    else
      [ { title := "Math Problem Solver: " ++ query
          url := "https://www.wolframalpha.com/input/?i=" ++ urlPlus query
          description := "Computational mathematics engine" },
        { title := "Mathematics Learning Platform"
          url := "https://www.khanacademy.org/math"
          description := "Free courses and practice exercises" },
        { title := "Step-by-Step Math Solutions"
          url := "https://www.mathway.com/"
          description := "Instant math problem solver with explanations" } ]
  references.take 3

/-- The Google-search stage of `solve_math_problem` (`routes.py`, STEP 2):
the service is consulted only when the knowledge-base confidence is below
`0.7`; `searchReturn` models what `search_math_query` would return if it were
invoked (`none` covers the disabled, failed, thrown and no-result cases — all
leave `google_search_data = None`). -/
structure RouteGoogleOutcome where
  googleInvoked : Bool
  googleData : Option GoogleSearchResponse
  deriving Repr, DecidableEq

/-- STEP 2 of `solve_math_problem`. -/
def googleFallbackStep (kbConfidence : ℚ)
    (searchReturn : Option GoogleSearchResponse) : RouteGoogleOutcome :=
  if kbConfidence < 7/10 then
    { googleInvoked := true, googleData := searchReturn }
  else
    { googleInvoked := false, googleData := none }

/-- The `used_google_search` flag of the response object (`routes.py`,
line 128). -/
def usedGoogleSearchFlag (d : Option GoogleSearchResponse) : Bool :=
  match d with
  | none => false
  | some r => !r.results.isEmpty

/-- The `google_search_count` field of the response object (`routes.py`,
line 129). -/
def googleSearchCountVal (d : Option GoogleSearchResponse) : Nat :=
  match d with
  | none => 0
  | some r => if !r.results.isEmpty then r.results.length else 0

/-- The Google-search metadata the final `MathResponse` reports: on the
normal path the fields computed above; on the LLM-exception fallback path the
`getattr(result, …, default)` defaults `False`/`0` (the `SearchResult` object
has neither attribute). -/
structure RouteMeta where
  googleInvoked : Bool
  usedGoogleSearch : Bool
  googleSearchCount : Nat
  deriving Repr, DecidableEq

/-- Google-search routing and reporting, combined (`routes.py`, STEP 2 plus
response construction; `llmOk` selects the normal path versus the
exception-fallback path). -/
def resolveGoogleMeta (kbConfidence : ℚ)
    (searchReturn : Option GoogleSearchResponse) (llmOk : Bool) : RouteMeta :=
  let st := googleFallbackStep kbConfidence searchReturn
  { googleInvoked := st.googleInvoked
    usedGoogleSearch := if llmOk then usedGoogleSearchFlag st.googleData else false
    googleSearchCount := if llmOk then googleSearchCountVal st.googleData else 0 }

/-- STEP 4 + STEP 5 of `solve_math_problem`: the `sources` list of the
response.  When Google data with at least one result is present, the first
two Google references are merged with the first locally generated reference
(keeping title and url, of which `sources` reads the title); otherwise the
locally generated references are used; either way `sources` is
`references[:3]` mapped to titles. -/
def assembleSources (query : String)
    (googleData : Option GoogleSearchResponse) : List String :=
  let references := generateDynamicReferences query
  match googleData with
  | some resp =>
    if !resp.results.isEmpty then
      let googleRefs := extractReferences resp
      let combined : List (String × String) :=
        (googleRefs.take 2).map (fun r => (r.title, r.url)) ++
          (references.take 1).map (fun r => (r.title, r.url))
      (combined.take 3).map (fun p => p.1)
    else (references.take 3).map (fun r => r.title)
  | none => (references.take 3).map (fun r => r.title)

/-! ## `feedback.py` — `FeedbackManager` -/

/-- Embedding of `FeedbackType` (`feedback.py`). -/
inductive FeedbackType where
  | positive
  | negative
  | correction
  | clarification
  deriving Repr, DecidableEq

/-- Embedding of `FeedbackType(value)`: the enum constructor, `none` modelling the
`ValueError` on an unknown value. -/
def feedbackTypeOfString (s : String) : Option FeedbackType :=
  if s = "positive" then some .positive
  else if s = "negative" then some .negative
  else if s = "correction" then some .correction
  else if s = "clarification" then some .clarification
  else none

/-- Embedding of `QueryLog` (the `query_id` key is the association-list key; the
wall-clock `timestamp` carries no logic and is dropped). -/
structure QueryLog where
  question : String
  answer : String
  confidence : ℚ
  sources : List String
  user_id : Option String
  reasoning_steps : Option (List String)
  deriving Repr, DecidableEq

/-- Embedding of `FeedbackEntry` (timestamp dropped as above). -/
structure FeedbackEntry where
  feedback_id : String
  query_id : String
  feedback_type : FeedbackType
  feedback_text : Option String
  corrected_answer : Option String
  user_id : Option String
  processed : Bool := false
  deriving Repr, DecidableEq

/-- Embedding of `FeedbackProcessingResult`. -/
structure FeedbackProcessingResult where
  feedback_id : String
  success : Bool
  message : String
  actions_taken : List String
  deriving Repr, DecidableEq

/-- The mutable state of a `FeedbackManager` together with the persistence
collaborators `process_feedback` touches: the in-memory caches, the
database's query-log table as a lookup (`none` models `get_database()`
returning `None`), and the database's feedback table as an append log. -/
structure FeedbackState where
  query_logs : List (String × QueryLog)
  feedback_entries : List (String × FeedbackEntry)
  db_query_logs : Option (List (String × QueryLog))
  db_feedback : List FeedbackEntry
  learning_enabled : Bool
  deriving Repr, DecidableEq

/-- Python truthiness of an optional string (`None` and `""` are falsy). -/
def pyTruthyOpt (o : Option String) : Bool :=
  match o with
  | none => false
  | some s => s ≠ ""

/-- Embedding of `FeedbackManager._handle_positive_feedback`. -/
def handlePositiveFeedback (learning : Bool) (log : QueryLog) : List String :=
  if learning then
    ["Reinforced successful response pattern"] ++
      (if !log.sources.isEmpty then
        [("Marked " ++ ⟨natToDigits log.sources.length⟩ ++ " sources as reliable")]
      else []) ++
      ["Updated confidence scoring for similar queries"]
  else []

/-- Embedding of `FeedbackManager._handle_negative_feedback`. -/
def handleNegativeFeedback (learning : Bool) (log : QueryLog) : List String :=
  if learning then
    ["Flagged response pattern for review"] ++
      (if !log.sources.isEmpty then
        [("Reduced confidence in " ++ ⟨natToDigits log.sources.length⟩ ++ " sources")]
      else []) ++
      (if log.confidence > 7/10 then
        ["Queued high-confidence incorrect answer for manual review"]
      else [])
  else []

/-- Embedding of `FeedbackManager._handle_correction_feedback`: acts only when a (truthy)
corrected answer is present and learning is enabled; otherwise it silently
returns no actions. -/
def handleCorrectionFeedback (learning : Bool) (fb : FeedbackEntry)
    (log : QueryLog) : List String :=
  if pyTruthyOpt fb.corrected_answer && learning then
    ["Stored corrected answer for future reference",
     "Added correction to knowledge base"] ++
      (if log.confidence > 6/10 && !log.sources.isEmpty then
        ["Flagged original sources for accuracy review"]
      else [])
  else []

/-- Embedding of `FeedbackManager._handle_clarification_feedback`. -/
def handleClarificationFeedback (learning : Bool) (fb : FeedbackEntry)
    (log : QueryLog) : List String :=
  if pyTruthyOpt fb.feedback_text && learning then
    ["Analyzed clarification requirements",
     "Marked original response as potentially unclear",
     "Queued for response clarity improvement"]
  else []

/-- Embedding of `FeedbackManager._process_feedback_by_type`. -/
def processFeedbackByType (learning : Bool) (fb : FeedbackEntry)
    (log : QueryLog) : List String :=
  match fb.feedback_type with
  | .positive => handlePositiveFeedback learning log
  | .negative => handleNegativeFeedback learning log
  | .correction => handleCorrectionFeedback learning fb log
  | .clarification => handleClarificationFeedback learning fb log

/-- Embedding of `FeedbackManager.process_feedback` (`feedback.py`, lines 116–208).
`fid` is the freshly drawn `uuid4` (nondeterministic in the source, threaded
as a parameter here).  Validation order: feedback type, then query-log
resolution (memory first, database second); each failure returns a failure
result and leaves the state untouched.  On success the entry is stored in
memory and appended to the database (the database snapshot is taken *before*
the `processed = True` mutation, so it keeps `processed = false`, while the
in-memory dictionary holds the mutated object). -/
def processFeedback (st : FeedbackState) (fid query_id feedback_type : String)
    (feedback_text corrected_answer user_id : Option String) :
    FeedbackProcessingResult × FeedbackState :=
  match feedbackTypeOfString feedback_type with
  | none =>
    ({ feedback_id := fid, success := false
       message := "Invalid feedback type: " ++ feedback_type
       actions_taken := [] }, st)
  | some fbType =>
    let memLog := st.query_logs.lookup query_id
    let log? : Option QueryLog :=
      match memLog with
      | some l => some l
      | none =>
        match st.db_query_logs with
        | some dbLogs => dbLogs.lookup query_id
        | none => none
    match log? with
    | none =>
      ({ feedback_id := fid, success := false
         message := "Query " ++ query_id ++ " not found"
         actions_taken := [] }, st)
    | some log =>
      let entry : FeedbackEntry :=
        { feedback_id := fid, query_id := query_id, feedback_type := fbType
          feedback_text := feedback_text, corrected_answer := corrected_answer
          user_id := user_id, processed := false }
      let actions := processFeedbackByType st.learning_enabled entry log
      let entryProcessed : FeedbackEntry := { entry with processed := true }
      ({ feedback_id := fid, success := true
         message := "Feedback processed successfully"
         actions_taken := actions },
       { st with
          feedback_entries := (fid, entryProcessed) :: st.feedback_entries
          db_feedback := st.db_feedback ++ [entry] })

/-! ## Concrete fixtures used by witnesses and counterexamples -/

/-- A Google response carrying exactly one result. -/
def googleRespOne : GoogleSearchResponse :=
  { query := "what"
    results := [{ title := "Result A", snippet := "snippet a"
                  link := "https://a.example/1", display_link := "a.example" }]
    total_results := 1 }

/-- A Google response carrying two results. -/
def googleRespTwo : GoogleSearchResponse :=
  { query := "what"
    results := [{ title := "Result A", snippet := "snippet a"
                  link := "https://a.example/1", display_link := "a.example" },
                { title := "Result B", snippet := "snippet b"
                  link := "https://b.example/2", display_link := "b.example" }]
    total_results := 2 }

/-- A query log on file for feedback fixtures. -/
def queryLogQ1 : QueryLog :=
  { question := "2 + 2", answer := "4", confidence := 1, sources := ["kb"]
    user_id := none, reasoning_steps := none }

/-- Feedback state holding `q1` in the in-memory cache. -/
def fbState1 : FeedbackState :=
  { query_logs := [("q1", queryLogQ1)], feedback_entries := []
    db_query_logs := none, db_feedback := [], learning_enabled := true }

/-- Feedback state with no query logs anywhere (database reachable but
empty). -/
def fbStateEmpty : FeedbackState :=
  { query_logs := [], feedback_entries := [], db_query_logs := some []
    db_feedback := [], learning_enabled := true }

/-- Feedback state whose `q2` log is resolvable only through the persistent
store (the in-memory cache is empty). -/
def fbStateDb : FeedbackState :=
  { query_logs := [], feedback_entries := []
    db_query_logs := some [("q2", queryLogQ1)]
    db_feedback := [], learning_enabled := true }

/-! ## Helper lemmas -/

set_option maxRecDepth 10000

theorem isPrefixOf_self_append (l t : List Char) : l.isPrefixOf (l ++ t) = true := by
  induction l with
  | nil => simp [List.isPrefixOf]
  | cons c rest ih => simp [List.isPrefixOf, ih]

theorem isSubListOf_of_isPrefixOf (nd l : List Char) (h : nd.isPrefixOf l = true) :
    isSubListOf nd l = true := by
  cases l with
  | nil => simpa [isSubListOf] using h
  | cons c rest => simp [isSubListOf, h]

theorem isSubListOf_middle (pre nd post : List Char) :
    isSubListOf nd (pre ++ nd ++ post) = true := by
  induction pre with
  | nil =>
    apply isSubListOf_of_isPrefixOf
    simpa using isPrefixOf_self_append nd post
  | cons p ps ih =>
    have step : isSubListOf nd (p :: (ps ++ nd ++ post)) =
        (nd.isPrefixOf (p :: (ps ++ nd ++ post)) || isSubListOf nd (ps ++ nd ++ post)) :=
      rfl
    show isSubListOf nd (p :: (ps ++ nd ++ post)) = true
    rw [step, ih, Bool.or_true]

theorem pyIn_middle (pre nd post : String) :
    pyIn nd (pre ++ nd ++ post) = true := by
  show isSubListOf nd.data (pre ++ nd ++ post).data = true
  rw [String.data_append, String.data_append]
  exact isSubListOf_middle pre.data nd.data post.data

/-! ## Claim theorems -/

/-- C3: whenever the Knowledge-Store confidence is at least 0.7, the
Google-search adapter is not invoked during resolution, and the response
reports `used_google_search = false` and `google_search_count = 0` (on the
normal path and on the LLM-exception fallback path alike). -/
theorem kb_confident_skips_google (kb : ℚ) (sr : Option GoogleSearchResponse)
    (llmOk : Bool) (h : 7/10 ≤ kb) :
    resolveGoogleMeta kb sr llmOk =
      { googleInvoked := false, usedGoogleSearch := false, googleSearchCount := 0 } := by
  unfold resolveGoogleMeta googleFallbackStep
  rw [if_neg (not_lt.mpr h)]
  cases llmOk <;> simp [usedGoogleSearchFlag, googleSearchCountVal]

/-- Witness for C3 at the concrete confidence 0.9. -/
theorem kb_confident_skips_google_witness :
    (7/10 : ℚ) ≤ 9/10 ∧
      resolveGoogleMeta (9/10) (some googleRespTwo) true =
        { googleInvoked := false, usedGoogleSearch := false, googleSearchCount := 0 } :=
  ⟨by norm_num, kb_confident_skips_google (9/10) (some googleRespTwo) true (by norm_num)⟩

/-- C1 (counterexample): a `correction` feedback with no corrected answer on
a resolvable query id *succeeds* and stores a FeedbackRecord marked
`processed = true` — the operation does not return a failure result. -/
theorem correction_without_answer_counterexample :
    (processFeedback fbState1 "fid1" "q1" "correction" none none none).1.success = true ∧
    ((processFeedback fbState1 "fid1" "q1" "correction" none none
        none).2.feedback_entries.lookup "fid1").map FeedbackEntry.processed =
      some true := by
  constructor <;> with_unfolding_all rfl

/-- C1 (amended): for every state in which the query id resolves to an
AnswerRecord — through the in-memory cache, or, on a cache miss, through the
persistent store (`feedback.py`, lines 151–157) — a `correction` feedback
with no corrected answer returns a *success* result, creates a
FeedbackRecord marked `processed = true`, and takes no actions (the
correction handler silently skips when `corrected_answer` is falsy). -/
theorem correction_without_answer_amended (st : FeedbackState)
    (fid qid : String) (ftext fuser : Option String) (log : QueryLog)
    (h : st.query_logs.lookup qid = some log ∨
      (st.query_logs.lookup qid = none ∧
        ∃ db, st.db_query_logs = some db ∧ db.lookup qid = some log)) :
    (processFeedback st fid qid "correction" ftext none fuser).1.success = true ∧
    (processFeedback st fid qid "correction" ftext none fuser).1.actions_taken = [] ∧
    ((processFeedback st fid qid "correction" ftext none
        fuser).2.feedback_entries.lookup fid).map FeedbackEntry.processed =
      some true := by
  unfold processFeedback
  have ht : feedbackTypeOfString "correction" = some .correction := rfl
  rw [ht]
  rcases h with hmem | ⟨hmem, db, hdb, hlook⟩
  · simp [hmem, processFeedbackByType, handleCorrectionFeedback, pyTruthyOpt,
      List.lookup]
  · simp [hmem, hdb, hlook, processFeedbackByType, handleCorrectionFeedback,
      pyTruthyOpt, List.lookup]

/-- Witness for C1's amended statement, exercising both resolution paths: a
state whose cache holds `q1`, and a state whose `q2` is resolvable only
through the persistent store. -/
theorem correction_without_answer_amended_witness :
    fbState1.query_logs.lookup "q1" = some queryLogQ1 ∧
    (processFeedback fbState1 "fidw" "q1" "correction" none none none).1.success = true ∧
    (processFeedback fbStateDb "fidw2" "q2" "correction" none none none).1.success = true :=
  ⟨by with_unfolding_all rfl,
   (correction_without_answer_amended fbState1 "fidw" "q1" none none queryLogQ1
      (Or.inl (by with_unfolding_all rfl))).1,
   (correction_without_answer_amended fbStateDb "fidw2" "q2" none none queryLogQ1
      (Or.inr ⟨by with_unfolding_all rfl, [("q2", queryLogQ1)],
        by with_unfolding_all rfl, by with_unfolding_all rfl⟩)).1⟩

/-- C5: feedback with a valid type against a query id resolvable neither in
the in-memory cache nor in the persistent store returns a failure result
whose message mentions the query id, and leaves the feedback state (memory
and database alike) unchanged. -/
theorem missing_query_feedback_fails (st : FeedbackState)
    (fid qid ftype : String) (ftext fcorr fuser : Option String)
    (hty : (feedbackTypeOfString ftype).isSome = true)
    (hmem : st.query_logs.lookup qid = none)
    (hdb : ∀ db, st.db_query_logs = some db → db.lookup qid = none) :
    (processFeedback st fid qid ftype ftext fcorr fuser).1.success = false ∧
    pyIn qid (processFeedback st fid qid ftype ftext fcorr fuser).1.message = true ∧
    (processFeedback st fid qid ftype ftext fcorr fuser).2 = st := by
  obtain ⟨t, ht⟩ := Option.isSome_iff_exists.mp hty
  unfold processFeedback
  rw [ht]
  simp only [hmem]
  cases hdbq : st.db_query_logs with
  | none =>
    refine ⟨rfl, ?_, rfl⟩
    exact pyIn_middle "Query " qid " not found"
  | some db =>
    dsimp only
    rw [hdb db hdbq]
    refine ⟨rfl, ?_, rfl⟩
    exact pyIn_middle "Query " qid " not found"

/-- Witness for C5 on the empty fixture state. -/
theorem missing_query_feedback_fails_witness :
    (feedbackTypeOfString "positive").isSome = true ∧
    (processFeedback fbStateEmpty "fidm" "missing" "positive" none none
      none).1.success = false :=
  ⟨rfl,
   (missing_query_feedback_fails fbStateEmpty "fidm" "missing" "positive"
      none none none rfl rfl (fun db hdb => by cases hdb; rfl)).1⟩

theorem generateDynamicReferences_length (q : String) :
    (generateDynamicReferences q).length = 3 := by
  simp only [generateDynamicReferences]
  split_ifs <;> rfl

/-- C2 (counterexample): with exactly one web (Google) reference available —
and the three locally generated references also available — the assembled
`sources` list has 2 entries, not 3: the assembler takes at most one local
reference alongside the web ones and never pads. -/
theorem reference_assembly_counterexample :
    (extractReferences googleRespOne).length = 1 ∧
    (assembleSources "what" (some googleRespOne)).length = 2 := by
  constructor <;> with_unfolding_all rfl

/-- C2 (amended): when web references exist the assembled `sources` list has
`min(webCount, 2) + 1` entries — the first `min(webCount, 2)` web titles
followed by one locally generated title, hence exactly 3 only when at least
two web references exist; when web references are absent or empty, exactly 3
locally generated references; no placeholder padding occurs. -/
theorem reference_assembly_amended (query : String)
    (gd : Option GoogleSearchResponse) :
    (assembleSources query gd).length =
      (match gd with
       | some r => if r.results.isEmpty then 3 else min r.results.length 2 + 1
       | none => 3) ∧
    (∀ r : GoogleSearchResponse, gd = some r → r.results.isEmpty = false →
      assembleSources query gd =
        ((extractReferences r).take 2).map GoogleRef.title ++
          ((generateDynamicReferences query).take 1).map LocalRef.title) := by
  have hlen := generateDynamicReferences_length query
  cases gd with
  | none =>
    refine ⟨?_, by intro r h; cases h⟩
    simp [assembleSources, hlen]
  | some r =>
    cases hr : r.results.isEmpty with
    | true =>
      refine ⟨?_, ?_⟩
      · simp [assembleSources, hr, hlen]
      · intro r' h hfalse
        injection h with h'
        rw [← h'] at hfalse
        rw [hr] at hfalse
        cases hfalse
    | false =>
      have hext : (extractReferences r).length = min r.results.length 3 := by
        simp [extractReferences, hr]
        omega
      have hcomb :
          (((extractReferences r).take 2).map (fun g => (g.title, g.url)) ++
            ((generateDynamicReferences query).take 1).map
              (fun l => (l.title, l.url))).length = min r.results.length 2 + 1 := by
        simp [hext, hlen]
        omega
      refine ⟨?_, ?_⟩
      · simp only [assembleSources, hr, Bool.not_false, if_true]
        rw [List.length_map, List.length_take, hcomb]
        simp
      · intro r' h hfalse
        injection h with h'
        subst h'
        simp only [assembleSources, hr, Bool.not_false, if_true]
        rw [List.take_of_length_le (by rw [hcomb]; omega)]
        rw [List.map_append, List.map_map, List.map_map]
        rfl

/-- Witness for C2's amended statement: with two web references the list is
exactly the two web titles plus one local title. -/
theorem reference_assembly_amended_witness :
    (assembleSources "what" (some googleRespTwo)).length = 3 ∧
    assembleSources "what" (some googleRespTwo) =
      ((extractReferences googleRespTwo).take 2).map GoogleRef.title ++
        ((generateDynamicReferences "what").take 1).map LocalRef.title :=
  ⟨((reference_assembly_amended "what" (some googleRespTwo)).1).trans
      (by with_unfolding_all rfl),
   (reference_assembly_amended "what" (some googleRespTwo)).2 googleRespTwo rfl rfl⟩

theorem pyStripL_length_le (l : List Char) : (pyStripL l).length ≤ l.length := by
  have h1 := (List.dropWhile_sublist isPyWs (l := l)).length_le
  have h2 :=
    (List.dropWhile_sublist isPyWs (l := (l.dropWhile isPyWs).reverse)).length_le
  simp only [pyStripL, List.length_reverse] at *
  omega

/-- C8 (counterexample): the empty input has length < 3 but is rejected with
`empty_content`, not `content_too_short`. -/
theorem too_short_counterexample :
    ("" : String).length < 3 ∧ (inputProcess "").issues = ["empty_content"] ∧
    ¬ "content_too_short" ∈ (inputProcess "").issues := by
  refine ⟨by decide, ?_, ?_⟩ <;> with_unfolding_all decide

/-- C8 (amended): every input of length < 3 whose text is not empty or pure
whitespace is rejected with exactly the reason `content_too_short`; empty or
whitespace-only inputs are rejected with `empty_content` instead. -/
theorem too_short_amended (s : String) (hlen : s.length < 3)
    (hne : pyStripL s.data ≠ []) :
    (inputProcess s).is_safe = false ∧
    (inputProcess s).issues = ["content_too_short"] := by
  have hempty : ¬ ((pyStripL s.data).isEmpty = true) := by
    simpa [List.isEmpty_iff] using hne
  have hstrip_lt : (pyStripL s.data).length < 3 :=
    lt_of_le_of_lt (pyStripL_length_le s.data) hlen
  unfold inputProcess
  dsimp only
  split_ifs with h1 h2 h3 <;>
    first
      | exact absurd h1 hempty
      | exact ⟨rfl, rfl⟩
      | (exfalso; omega)

/-- Witness for C8's amended statement at the concrete input `"hi"`. -/
theorem too_short_amended_witness :
    ("hi" : String).length < 3 ∧ (inputProcess "hi").issues = ["content_too_short"] :=
  ⟨by decide, (too_short_amended "hi" (by decide) (by decide)).2⟩

/-- C9 (counterexample): the rejected input `"@#"` is returned verbatim in
the `content` field, not as its cleaned copy (cleaning strips both
characters). -/
theorem cleaned_copy_counterexample :
    (inputProcess "@#").content = "@#" ∧
    cleanContent (pyStripL ("@#").data) = [] ∧
    (inputProcess "@#").content ≠ ⟨cleanContent (pyStripL ("@#").data)⟩ := by
  refine ⟨?_, ?_, ?_⟩ <;> with_unfolding_all decide

/-- C9 (amended): the cleaned/normalized copy is returned in `content`
whenever the input is accepted (and on every run that reaches the full
validation pipeline); terminal rejections return the text with only
stripping and truncation applied. -/
theorem cleaned_copy_amended (s : String) (h : (inputProcess s).is_safe = true) :
    (inputProcess s).content =
      ⟨cleanContent (if (pyStripL s.data).length > 1000 then
        (pyStripL s.data).take 1000 else pyStripL s.data)⟩ := by
  unfold inputProcess at h ⊢
  dsimp only at h ⊢
  split_ifs at h ⊢ <;> first | rfl | simp_all

/-- Witness for C9's amended statement at the accepted input `"2 + 2"`. -/
theorem cleaned_copy_amended_witness :
    (inputProcess "2 + 2").is_safe = true ∧ (inputProcess "2 + 2").content = "2 + 2" :=
  ⟨by with_unfolding_all rfl,
   ((cleaned_copy_amended "2 + 2" (by with_unfolding_all rfl)).trans
      (by with_unfolding_all rfl))⟩

theorem max_clamp_unit (x : ℚ) (hx : x ≤ 1) : 0 ≤ max 0 x ∧ max 0 x ≤ 1 :=
  ⟨le_max_left _ _, max_le (by norm_num) hx⟩

theorem output_conf_le_one (a b d : ℚ) (k : Nat) (ha : 0 ≤ a) (hb : 0 ≤ b)
    (hd : 0 ≤ d) : 1 - a - b - (k : ℚ) * (4/10) - d ≤ 1 := by
  have hk : (0 : ℚ) ≤ (k : ℚ) * (4/10) := by positivity
  linarith

set_option maxHeartbeats 2000000 in
/-- C10: on every input, both input-mode and output-mode filtering produce a
confidence inside `[0, 1]` — the deduction paths clamp with `max 0` and stay
below the initial `1.0`, and every early return uses the constant `0.0` or
`1.0`. -/
theorem filter_confidence_bounds (s : String) :
    (0 ≤ (inputProcess s).confidence ∧ (inputProcess s).confidence ≤ 1) ∧
    (0 ≤ (outputProcess s).confidence ∧ (outputProcess s).confidence ≤ 1) := by
  constructor
  · unfold inputProcess
    dsimp only
    split_ifs <;> first
      | ((constructor <;> norm_num); done)
      | (apply max_clamp_unit; norm_num)
  · unfold outputProcess
    dsimp only
    split_ifs <;> first
      | ((constructor <;> norm_num); done)
      | (apply max_clamp_unit
         apply output_conf_le_one <;> norm_num)

theorem append_len (s t : String) : (s ++ t).length = s.length + t.length := by
  show (s ++ t).data.length = s.data.length + t.data.length
  rw [String.data_append, List.length_append]

theorem genericEquationTemplate_pos (l r q : String) :
    0 < (genericEquationTemplate l r q).length := by
  unfold genericEquationTemplate
  simp only [append_len]
  have h1 : 0 < ("## Step-by-Step Solution for: ").length := by decide
  omega

theorem linearRenderTemplate_pos (l r q : String) (coeff constant step1 rv : Int)
    (solution check : ℚ) :
    0 < (linearRenderTemplate l r q coeff constant step1 rv solution check).length := by
  unfold linearRenderTemplate
  simp only [append_len]
  have h1 : 0 < ("## Step-by-Step Solution for: ").length := by decide
  omega

theorem solveLinearEquationPattern_pos (l r q : String) :
    0 < (solveLinearEquationPattern l r q).length := by
  unfold solveLinearEquationPattern
  split
  · split <;> split <;>
      (split
       · dsimp only
         split
         · exact genericEquationTemplate_pos _ _ _
         · exact linearRenderTemplate_pos _ _ _ _ _ _ _ _ _
       · exact genericEquationTemplate_pos _ _ _)
  · exact genericEquationTemplate_pos _ _ _

theorem solveGeneralMathComprehensive_pos (q : String) :
    0 < (solveGeneralMathComprehensive q).length := by
  unfold solveGeneralMathComprehensive
  simp only [append_len]
  have h1 : 0 < ("## Step-by-Step Mathematical Analysis for: ").length := by decide
  omega

theorem eq3x7Template_pos : 0 < eq3x7Template.length := by
  unfold eq3x7Template
  simp only [append_len]
  have h1 : 0 < ("## Step-by-Step Solution for: 3x + 7 = 10").length := by decide
  omega

theorem solveEquationComprehensive_pos (q : String) :
    0 < (solveEquationComprehensive q).length := by
  unfold solveEquationComprehensive
  split
  · exact eq3x7Template_pos
  · split
    · exact solveGeneralMathComprehensive_pos _
    · exact solveLinearEquationPattern_pos _ _ _

theorem divisionByZeroTemplate_pos (q : String) :
    0 < (divisionByZeroTemplate q).length := by
  unfold divisionByZeroTemplate
  simp only [append_len]
  have h1 : 0 < ("## Solution for: ").length := by decide
  omega

theorem arithAnswerTemplate_pos (q : String) (n1 : Int) (opC : Char) (n2 : Int)
    (rs op ex : String) : 0 < (arithAnswerTemplate q n1 opC n2 rs op ex).length := by
  unfold arithAnswerTemplate
  simp only [append_len]
  have h1 : 0 < ("## Step-by-Step Solution for: ").length := by decide
  omega

theorem arithBranch_pos (q : String) (n1 n2 : Int) (opC : Char) :
    0 < (arithBranch q n1 n2 opC).length := by
  unfold arithBranch
  split_ifs
  · exact arithAnswerTemplate_pos _ _ _ _ _ _ _
  · exact arithAnswerTemplate_pos _ _ _ _ _ _ _
  · exact arithAnswerTemplate_pos _ _ _ _ _ _ _
  · exact divisionByZeroTemplate_pos _
  · exact arithAnswerTemplate_pos _ _ _ _ _ _ _
  · simp only [append_len]
    have h1 : 0 < ("## Solution for: ").length := by decide
    omega

theorem solveArithmeticComprehensive_pos (q : String) :
    0 < (solveArithmeticComprehensive q).length := by
  unfold solveArithmeticComprehensive
  split
  · exact arithBranch_pos _ _ _ _
  · simp only [append_len]
    have h1 : 0 < ("## Solution for: ").length := by decide
    omega

theorem solveDerivativeComprehensive_pos (q : String) :
    0 < (solveDerivativeComprehensive q).length := by
  unfold solveDerivativeComprehensive
  simp only [append_len]
  have h1 : 0 < ("## Step-by-Step Solution for: ").length := by decide
  omega

theorem solveIntegralComprehensive_pos (q : String) :
    0 < (solveIntegralComprehensive q).length := by
  unfold solveIntegralComprehensive
  simp only [append_len]
  have h1 : 0 < ("## Step-by-Step Solution for: ").length := by decide
  omega

theorem solveGeometryComprehensive_pos (q : String) :
    0 < (solveGeometryComprehensive q).length := by
  unfold solveGeometryComprehensive
  simp only [append_len]
  have h1 : 0 < ("## Step-by-Step Solution for: ").length := by decide
  omega

theorem solvePercentageComprehensive_pos (q : String) :
    0 < (solvePercentageComprehensive q).length := by
  unfold solvePercentageComprehensive
  simp only [append_len]
  have h1 : 0 < ("## Step-by-Step Solution for: ").length := by decide
  omega

theorem solveGeneralArithmetic_pos (q : String) :
    0 < (solveGeneralArithmetic q).length := by
  unfold solveGeneralArithmetic
  simp only [append_len]
  have h1 : 0 < ("## Step-by-Step Solution for: ").length := by decide
  omega

/-- C4: the fallback solver is a total function (every exception branch of
the source is caught and lands in a template — the zero-coefficient division
and failed parses included) and returns a non-empty answer text on every
input question. -/
theorem fallback_always_answers (q : String) :
    comprehensiveFallbackSolution q ≠ "" := by
  have hpos : 0 < (comprehensiveFallbackSolution q).length := by
    unfold comprehensiveFallbackSolution
    dsimp only
    split_ifs
    · exact solveEquationComprehensive_pos _
    · exact solveArithmeticComprehensive_pos _
    · exact solveDerivativeComprehensive_pos _
    · exact solveIntegralComprehensive_pos _
    · exact solveGeometryComprehensive_pos _
    · exact solvePercentageComprehensive_pos _
    · exact solveGeneralArithmetic_pos _
    · exact solveGeneralMathComprehensive_pos _
  intro h
  rw [h] at hpos
  exact absurd hpos (by decide)

theorem simpleArithParse_inv (cs : List Char) (d1 : List Char) (op : Char)
    (d2 : List Char) (h : simpleArithParse cs = some (d1, op, d2)) :
    ∃ cs4,
      d1 = (cs.dropWhile isPyWs).takeWhile Char.isDigit ∧
      d1 ≠ [] ∧
      ((cs.dropWhile isPyWs).dropWhile Char.isDigit).dropWhile isPyWs = op :: cs4 ∧
      arithOps.contains op = true ∧
      d2 = (cs4.dropWhile isPyWs).takeWhile Char.isDigit ∧
      d2 ≠ [] ∧
      ((cs4.dropWhile isPyWs).dropWhile Char.isDigit).dropWhile isPyWs = [] := by
  unfold simpleArithParse at h
  dsimp only at h
  split at h
  · cases h
  · rename_i hd1
    split at h
    · cases h
    · rename_i a b heq
      split at h
      · rename_i hcontains
        split at h
        · cases h
        · rename_i hd2
          split at h
          · rename_i hcs6
            injection h with h'
            injection h' with e1 h''
            injection h'' with e2 e3
            subst e1
            subst e2
            subst e3
            refine ⟨b, rfl, ?_, heq, hcontains, rfl, ?_, ?_⟩
            · intro hnil
              exact hd1 (by rw [hnil]; rfl)
            · intro hnil
              exact hd2 (by rw [hnil]; rfl)
            · cases hemp : (((b.dropWhile isPyWs).dropWhile Char.isDigit).dropWhile isPyWs) with
              | nil => rfl
              | cons x xs => rw [hemp] at hcs6; cases hcs6
          · cases h
      · cases h

theorem ws_not_digit (c : Char) (h : isPyWs c = true) : c.isDigit = false := by
  unfold isPyWs at h
  simp only [Bool.or_eq_true, decide_eq_true_eq] at h
  rcases h with ((((rfl | rfl) | rfl) | rfl) | rfl) | rfl <;> decide

theorem arithSearch_dropWhile_ws (cs : List Char) :
    arithSearch cs = arithSearch (cs.dropWhile isPyWs) := by
  induction cs with
  | nil => rfl
  | cons c rest ih =>
    by_cases hc : isPyWs c = true
    · have hstep : arithSearch (c :: rest) = arithSearch rest := by
        have hdig := ws_not_digit c hc
        conv_lhs => rw [arithSearch]
        rw [hdig]
        rfl
      rw [hstep, List.dropWhile_cons_of_pos hc]
      exact ih
    · rw [List.dropWhile_cons_of_neg hc]

theorem arithSearch_of_parse (cs : List Char) (d1 : List Char) (op : Char)
    (d2 : List Char) (h : simpleArithParse cs = some (d1, op, d2)) :
    arithSearch cs = some (d1, op, d2) := by
  obtain ⟨cs4, e1, hne, heq, hcont, e2, hne2, hcs6⟩ := simpleArithParse_inv cs d1 op d2 h
  rw [arithSearch_dropWhile_ws]
  cases hcase : cs.dropWhile isPyWs with
  | nil =>
    rw [hcase] at e1
    simp at e1
    exact absurd e1 hne
  | cons c0 rest0 =>
    rw [hcase] at e1 heq
    have hd : c0.isDigit = true := by
      by_cases hd0 : c0.isDigit = true
      · exact hd0
      · rw [List.takeWhile_cons_of_neg hd0] at e1
        exact absurd e1 hne
    have hd2e : d2.isEmpty = false := by
      cases d2 with
      | nil => exact absurd rfl hne2
      | cons x xs => rfl
    conv_lhs => rw [arithSearch]
    rw [hd]
    rw [if_pos rfl]
    rw [heq]
    show (if arithOps.contains op = true then
        if ((cs4.dropWhile isPyWs).takeWhile Char.isDigit).isEmpty = true then
          arithSearch rest0
        else
          some ((c0 :: rest0).takeWhile Char.isDigit, op,
            (cs4.dropWhile isPyWs).takeWhile Char.isDigit)
      else arithSearch rest0) = some (d1, op, d2)
    rw [hcont, if_pos rfl, ← e2, hd2e, if_neg Bool.false_ne_true, ← e1]

theorem mem_dropWhile_of_not (p : Char → Bool) (l : List Char) (c : Char)
    (h : c ∈ l) (hn : ¬ p c = true) : c ∈ l.dropWhile p := by
  induction l with
  | nil => cases h
  | cons a t ih =>
    rw [List.dropWhile_cons]
    split
    · rcases List.mem_cons.mp h with rfl | hm
      · exact absurd (by assumption) hn
      · exact ih hm
    · exact h

theorem mem_pyStripL_of_mem (l : List Char) (c : Char) (h : c ∈ l)
    (hw : ¬ isPyWs c = true) : c ∈ pyStripL l := by
  unfold pyStripL
  rw [List.mem_reverse]
  apply mem_dropWhile_of_not _ _ _ _ hw
  rw [List.mem_reverse]
  exact mem_dropWhile_of_not _ _ _ h hw

theorem simpleArithParse_chars (cs : List Char) (d1 : List Char) (op : Char)
    (d2 : List Char) (h : simpleArithParse cs = some (d1, op, d2)) :
    ∀ c ∈ cs, isPyWs c = true ∨ c.isDigit = true ∨ arithOps.contains c = true := by
  obtain ⟨cs4, e1, hne, heq, hcont, e2, hne2, hcs6⟩ := simpleArithParse_inv cs d1 op d2 h
  intro c hc
  have h0 := List.takeWhile_append_dropWhile isPyWs cs
  rw [← h0] at hc
  rcases List.mem_append.mp hc with hA | hB
  · exact Or.inl (List.mem_takeWhile_imp hA)
  · have h1 := List.takeWhile_append_dropWhile Char.isDigit (cs.dropWhile isPyWs)
    rw [← h1] at hB
    rcases List.mem_append.mp hB with hC | hD
    · exact Or.inr (Or.inl (List.mem_takeWhile_imp hC))
    · have h2 := List.takeWhile_append_dropWhile isPyWs
        ((cs.dropWhile isPyWs).dropWhile Char.isDigit)
      rw [← h2] at hD
      rcases List.mem_append.mp hD with hE | hF
      · exact Or.inl (List.mem_takeWhile_imp hE)
      · rw [heq] at hF
        rcases List.mem_cons.mp hF with rfl | hG
        · exact Or.inr (Or.inr hcont)
        · have h3 := List.takeWhile_append_dropWhile isPyWs cs4
          rw [← h3] at hG
          rcases List.mem_append.mp hG with hH | hI
          · exact Or.inl (List.mem_takeWhile_imp hH)
          · have h4 := List.takeWhile_append_dropWhile Char.isDigit
              (cs4.dropWhile isPyWs)
            rw [← h4] at hI
            rcases List.mem_append.mp hI with hJ | hK
            · exact Or.inr (Or.inl (List.mem_takeWhile_imp hJ))
            · have h5 := List.takeWhile_append_dropWhile isPyWs
                ((cs4.dropWhile isPyWs).dropWhile Char.isDigit)
              rw [← h5] at hK
              rcases List.mem_append.mp hK with hL | hM
              · exact Or.inl (List.mem_takeWhile_imp hL)
              · rw [hcs6] at hM
                cases hM

theorem mem_of_isSubListOf_singleton (c : Char) (l : List Char)
    (h : isSubListOf [c] l = true) : c ∈ l := by
  induction l with
  | nil => simp [isSubListOf, List.isPrefixOf] at h
  | cons x rest ih =>
    have hstep : isSubListOf [c] (x :: rest) =
        ([c].isPrefixOf (x :: rest) || isSubListOf [c] rest) := rfl
    rw [hstep] at h
    simp only [Bool.or_eq_true] at h
    rcases h with hp | hr
    · simp [List.isPrefixOf] at hp
      exact hp ▸ List.mem_cons_self x rest
    · exact List.mem_cons_of_mem x (ih hr)

/-- C6: on every pure two-operand division whose divisor digits spell zero
(`"4 / 0"` included), the fallback solver returns the explicit
division-by-zero explanation template — no exception, no numeric or NaN
result. -/
theorem division_by_zero_explained (s : String) (d1 : List Char) (op : Char)
    (d2 : List Char)
    (hparse : simpleArithParse (pyStripL s.data) = some (d1, op, d2))
    (hop : op = '/' ∨ op = '÷') (hzero : digitsToNat d2 = 0) :
    comprehensiveFallbackSolution s = divisionByZeroTemplate s := by
  have hchars := simpleArithParse_chars _ _ _ _ hparse
  have heqfalse : pyIn "=" s = false := by
    cases hin : pyIn "=" s
    · rfl
    · exfalso
      have hmem : '=' ∈ s.data := mem_of_isSubListOf_singleton _ _ hin
      have hmem2 : '=' ∈ pyStripL s.data := mem_pyStripL_of_mem _ _ hmem (by decide)
      rcases hchars '=' hmem2 with hw | hd | ho
      · exact absurd hw (by decide)
      · exact absurd hd (by decide)
      · exact absurd ho (by decide)
  have hsimple : isSimpleArithmetic s = true := by
    unfold isSimpleArithmetic
    rw [hparse]
    rfl
  have hsearch := arithSearch_of_parse _ _ _ _ hparse
  unfold comprehensiveFallbackSolution
  dsimp only
  rw [heqfalse, if_neg Bool.false_ne_true, hsimple, if_pos rfl]
  unfold solveArithmeticComprehensive
  rw [hsearch]
  dsimp only
  have hopC : (if op = '×' then '*' else if op = '÷' then '/' else op) = '/' := by
    rcases hop with rfl | rfl <;> rfl
  rw [hopC]
  unfold arithBranch
  rw [if_neg (by decide), if_neg (by decide), if_neg (by decide), if_pos rfl,
    if_pos (by exact_mod_cast hzero)]

/-- Witness for C6 at the concrete input `"4 / 0"`. -/
theorem division_by_zero_explained_witness :
    simpleArithParse (pyStripL ("4 / 0").data) = some (['4'], '/', ['0']) ∧
    comprehensiveFallbackSolution "4 / 0" = divisionByZeroTemplate "4 / 0" :=
  ⟨by with_unfolding_all rfl,
   division_by_zero_explained "4 / 0" ['4'] '/' ['0'] (by with_unfolding_all rfl)
     (Or.inl rfl) (by with_unfolding_all rfl)⟩

/-- C7: on `"2x + 5 = 13"` the fallback equation template states the solution
`x = 4` (rendered `4.0`, Python float) and carries the verification block that
substitutes it back into the original equation
(`2(4.0) + (5) = 13.0`, `13.0 = 13 ✓`). -/
theorem equation_2x5_13_solution :
    pyIn "**Answer:** x = 4.0" (comprehensiveFallbackSolution "2x + 5 = 13") = true ∧
    pyIn ("**Step 3:** Verify the solution\nSubstitute x = 4.0 back into the original equation:\n2(4.0) + (5) = 13.0\n13.0 = 13 ✓")
      (comprehensiveFallbackSolution "2x + 5 = 13") = true ∧
    pyIn "x = 4" (comprehensiveFallbackSolution "2x + 5 = 13") = true := by
  refine ⟨?_, ?_, ?_⟩ <;> with_unfolding_all rfl
